import Mathlib

/-!
Verification of the RF test-automation core against its specification.

This file shallowly embeds the parts of the code base that the checked
properties talk about:

* the occupied-bandwidth (OBW) trace analysis, which exists twice in the
  source: once in the orchestrator (tests_lora.py, compute_obw_from_trace)
  and once in the analyzer driver (SpectrumAnalyzer.py,
  measure_obw_via_max_hold, trace-analysis portion);
* the instrument-session primitives send_command / send_and_wait /
  is_connected of SpectrumAnalyzer.py;
* the zoom-pass loaders of tests_lora.py, tests_lte.py and tests_ble.py;
* the pass/fail verdict logic of the TxPower streams;
* the event-emission skeleton of the seven streaming test generators
  (LoRa TxPower / FrequencyAccuracy / OBW, LTE TxPower / FrequencyAccuracy,
  BLE TxPower / FrequencyAccuracy).

Python floats are idealized as exact rationals (ℚ).  The only non-rational
operation in the analyzed numeric code, the dBm-to-linear conversion
10.0 ^ (v / 10.0), is abstracted as a function parameter dbmToLin; theorems
that need it assume exactly the properties the real conversion has
(strict positivity).  The float literal 1.05 is modelled as 21/20.
-/

namespace RF

/-! ## Occupied-bandwidth trace analysis (orchestrator copy)

Faithful translation of tests_lora.py, lines 264-293
(compute_obw_from_trace).  The greedy window-growing while loop is
obwLoop; the peak search replicates max(range(n), key=lambda i: lin[i]),
which returns the FIRST index attaining the maximum. -/

/-- Helper for the peak search: fold over the tail, keeping the first index
whose value is maximal (Python max replaces the best only on a strictly
greater key). -/
def argmaxFromFirst (best : Nat) (bestv : ℚ) (i : Nat) : List ℚ → Nat
  | [] => best
  | x :: xs => if bestv < x then argmaxFromFirst i x (i + 1) xs
               else argmaxFromFirst best bestv (i + 1) xs

/-- Index of the first maximal element, as computed by
max(range(n), key=lambda i: lin[i]) in the source (0 on the empty list,
which the callers exclude by the length guard). -/
def argmaxFirst : List ℚ → Nat
  | [] => 0
  | x :: xs => argmaxFromFirst 0 x 1 xs

/-- The greedy window-growing loop of compute_obw_from_trace
(tests_lora.py lines 277-287): while the accumulated power is below the
target and a boundary is open, grow one sample toward the larger
neighboring power.  Returns (left, right, acc). -/
def obwLoop (lin : List ℚ) (n : Nat) (target : ℚ) (left right : Nat) (acc : ℚ) :
    Nat × Nat × ℚ :=
  if hw : acc < target ∧ (0 < left ∨ right < n - 1) then
    let lp : ℚ := if 0 < left then lin.getD (left - 1) 0 else -1
    let rp : ℚ := if right < n - 1 then lin.getD (right + 1) 0 else -1
    if hr : lp < rp ∧ right < n - 1 then
      obwLoop lin n target left (right + 1) (acc + lin.getD (right + 1) 0)
    else if hl : 0 < left then
      obwLoop lin n target (left - 1) right (acc + lin.getD (left - 1) 0)
    else
      (left, right, acc)
  else
    (left, right, acc)
termination_by (n - 1 - right) + left
decreasing_by
  · have h2 := hr.2; omega
  · omega

/-- Peak index, target power and the final greedy window for a linear-power
trace (tests_lora.py lines 269-287, after the two validity guards). -/
def obwWindow (lin : List ℚ) (pct : ℚ) : Nat × Nat × ℚ :=
  obwLoop lin lin.length (lin.sum * (pct / 100)) (argmaxFirst lin) (argmaxFirst lin)
    (lin.getD (argmaxFirst lin) 0)

/-- The obw_hz value computed at tests_lora.py lines 288-290:
bin_hz = span_hz / max(1, swe_points - 1), width_bins = max(1, right - left),
obw_hz = width_bins * bin_hz. -/
def obwValue (lin : List ℚ) (span_hz swe_points : ℤ) (pct : ℚ) : ℚ :=
  ((max 1 (((obwWindow lin pct).2.1 : ℤ) - ((obwWindow lin pct).1 : ℤ)) : ℤ) : ℚ) *
    ((span_hz : ℚ) / ((max 1 (swe_points - 1) : ℤ) : ℚ))

/-- Error outcomes of the OBW computation: the three raise sites of
compute_obw_from_trace (RuntimeError for a short trace, RuntimeError for
non-positive total power, ValueError for an out-of-range result). -/
inductive ObwError : Type where
  | traceTooShort : ObwError
  | nonPositiveTotalPower : ObwError
  | outOfRange : ObwError
deriving DecidableEq, Repr

/-- Translation of compute_obw_from_trace (tests_lora.py lines 264-293).
dbmToLin abstracts the float expression 10.0 ^ (v / 10.0) (mW linear power
of a dBm sample); the final guard models
if not (0.0 < obw_hz <= span_hz * 1.05): raise, with 1.05 as 21/20. -/
def compute_obw_from_trace (dbmToLin : ℚ → ℚ) (dbm_vals : List ℚ)
    (span_hz swe_points : ℤ) (pct : ℚ) : Except ObwError ℚ :=
  if dbm_vals.length < 10 then .error .traceTooShort
  else
    let lin := dbm_vals.map dbmToLin
    if lin.sum ≤ 0 then .error .nonPositiveTotalPower
    else
      let obw_hz := obwValue lin span_hz swe_points pct
      if 0 < obw_hz ∧ obw_hz ≤ (span_hz : ℚ) * (21 / 20) then .ok obw_hz
      else .error .outOfRange

/-! ## Occupied-bandwidth trace analysis (analyzer-driver copy)

Independent translation of the trace-analysis portion of
SpectrumAnalyzer.measure_obw_via_max_hold (SpectrumAnalyzer.py lines
364-410): the code after the trace has been fetched and parsed into
vals_dbm and span_hz / swe_points have been determined.  The surrounding
fetch, fallback and trace-mode-restore logic is procedural I/O and is not
part of this comparison. -/

/-- Driver copy of the first-maximum fold (SpectrumAnalyzer.py line 388). -/
def drvArgmaxFromFirst (best : Nat) (bestv : ℚ) (i : Nat) : List ℚ → Nat
  | [] => best
  | x :: xs => if bestv < x then drvArgmaxFromFirst i x (i + 1) xs
               else drvArgmaxFromFirst best bestv (i + 1) xs

/-- Driver copy of the peak search max(range(n), key=lambda i: lin[i]). -/
def drvArgmaxFirst : List ℚ → Nat
  | [] => 0
  | x :: xs => drvArgmaxFromFirst 0 x 1 xs

/-- Driver copy of the greedy window loop (SpectrumAnalyzer.py lines
391-403). -/
def drvObwLoop (lin : List ℚ) (n : Nat) (target : ℚ) (left right : Nat) (acc : ℚ) :
    Nat × Nat × ℚ :=
  if hw : acc < target ∧ (0 < left ∨ right < n - 1) then
    let lp : ℚ := if 0 < left then lin.getD (left - 1) 0 else -1
    let rp : ℚ := if right < n - 1 then lin.getD (right + 1) 0 else -1
    if hr : lp < rp ∧ right < n - 1 then
      drvObwLoop lin n target left (right + 1) (acc + lin.getD (right + 1) 0)
    else if hl : 0 < left then
      drvObwLoop lin n target (left - 1) right (acc + lin.getD (left - 1) 0)
    else
      (left, right, acc)
  else
    (left, right, acc)
termination_by (n - 1 - right) + left
decreasing_by
  · have h2 := hr.2; omega
  · omega

/-- Trace-analysis portion of measure_obw_via_max_hold (SpectrumAnalyzer.py
lines 364-410), given the parsed dBm samples, the determined span and sweep
points, and the percentage. -/
def measure_obw_trace_analysis (dbmToLin : ℚ → ℚ) (vals_dbm : List ℚ)
    (span_hz swe_points : ℤ) (pct : ℚ) : Except ObwError ℚ :=
  if vals_dbm.length < 10 then .error .traceTooShort
  else
    let lin := vals_dbm.map dbmToLin
    if lin.sum ≤ 0 then .error .nonPositiveTotalPower
    else
      let w := drvObwLoop lin lin.length (lin.sum * (pct / 100))
        (drvArgmaxFirst lin) (drvArgmaxFirst lin) (lin.getD (drvArgmaxFirst lin) 0)
      let obw_hz := ((max 1 ((w.2.1 : ℤ) - (w.1 : ℤ)) : ℤ) : ℚ) *
        ((span_hz : ℚ) / ((max 1 (swe_points - 1) : ℤ) : ℚ))
      if 0 < obw_hz ∧ obw_hz ≤ (span_hz : ℚ) * (21 / 20) then .ok obw_hz
      else .error .outOfRange

/-- Socket handle held by the instrument session.  The dead flag models a
socket whose peer has gone away: the next sendall on it raises OSError
(a write fault mid-operation). -/
structure Sock where
  sid : Nat
  dead : Bool
deriving DecidableEq, Repr

/-- Session state of SpectrumAnalyzer: the sock attribute, None when
disconnected (SpectrumAnalyzer.py line 45). -/
abbrev Session := Option Sock

/-- Exceptions of the session primitives: InstrumentNotConnected with its
message (SpectrumAnalyzer.py lines 33-34, raised at lines 84 and 94),
IOError (line 96) and TimeoutError (line 141). -/
inductive SpecErr : Type where
  | instrumentNotConnected (msg : String)
  | ioError
  | timeoutError
deriving DecidableEq, Repr

/-- SpectrumAnalyzer.is_connected (lines 144-147): true iff a socket handle
is held (sock is not None), regardless of whether the peer is alive. -/
def is_connected (s : Session) : Bool := s.isSome

/-- SpectrumAnalyzer.send_command (lines 86-96): raise InstrumentNotConnected
when no socket is held; on a write fault (OSError from sendall) raise
InstrumentNotConnected with the message Socket closed.  The source never
assigns self.sock in this method, so the state is returned unchanged on
every path. -/
def send_command (s : Session) : Except SpecErr Unit × Session :=
  match s with
  | none => (.error (.instrumentNotConnected "Analyzer not connected"), none)
  | some sk =>
    if sk.dead then (.error (.instrumentNotConnected "Socket closed"), some sk)
    else (.ok (), some sk)

/-- Python str.strip() applied to an instrument reply: whitespace removed
from both ends (modelled structurally so that it evaluates). -/
def pyStrip (s : String) : String :=
  ⟨((s.data.dropWhile Char.isWhitespace).reverse.dropWhile Char.isWhitespace).reverse⟩

/-- Outcome of one operation-complete poll iteration inside
send_and_wait (SpectrumAnalyzer.py lines 129-139): the query either returns
a reply text, raises InstrumentNotConnected (re-raised immediately, line
134-135), or raises some other exception (swallowed and retried, lines
136-138). -/
inductive Poll : Type where
  | reply (text : String)
  | raiseNotConnected (msg : String)
  | raiseOther
deriving DecidableEq, Repr

/-- The while loop of send_and_wait (SpectrumAnalyzer.py lines 129-141).
Each list entry is one iteration taken while time.time() < deadline; an
exhausted list is the deadline elapsing, after which TimeoutError is
raised.  A reply matches when it is non-empty and strips to wait_for. -/
def send_and_wait_loop (wait_for : String) : List Poll → Except SpecErr Bool
  | [] => .error .timeoutError
  | .reply r :: rest =>
    if r ≠ "" ∧ pyStrip r = wait_for then .ok true else send_and_wait_loop wait_for rest
  | .raiseNotConnected m :: _ => .error (.instrumentNotConnected m)
  | .raiseOther :: rest => send_and_wait_loop wait_for rest

/-- send_and_wait (SpectrumAnalyzer.py lines 121-141): send the command,
then poll the operation-complete query until a reply strips to wait_for or
the deadline elapses. -/
def send_and_wait (s : Session) (wait_for : String) (polls : List Poll) :
    Except SpecErr Bool :=
  match (send_command s).1 with
  | .error e => .error e
  | .ok _ => send_and_wait_loop wait_for polls

/-- Pass/fail verdict of the TxPower runs.  This logic appears verbatim in
three places: tests_lora.py lines 97-103, tests_lte.py lines 233-238 and
tests_ble.py lines 260-265: passed is None when no limit is provided,
otherwise the AND of the supplied bound checks. -/
def tx_power_passed (measured : ℚ) (min_value max_value : Option ℚ) : Option Bool :=
  if min_value = none ∧ max_value = none then none
  else
    let lower_ok := match min_value with
      | none => true
      | some m => decide (m ≤ measured)
    let upper_ok := match max_value with
      | none => true
      | some m => decide (measured ≤ m)
    some (lower_ok && upper_ok)

/-- One zoom pass (span, resolution bandwidth, video bandwidth, settle
delay), as produced by the zoom loaders. -/
structure ZoomPass where
  span_hz : ℤ
  rbw_hz : ℤ
  vbw_hz : ℤ
  delay_s : ℚ
deriving DecidableEq, Repr

/-- One raw YAML zoom entry before validation: each field is present and
parsed, or missing/unparsable (None). -/
structure RawZoom where
  span_hz : Option ℤ
  rbw_hz : Option ℤ
  vbw_hz : Option ℤ
  delay_s : Option ℚ
deriving DecidableEq, Repr

/-- The zoom-list validation loop, shared verbatim by
tests_lora.py lines 138-150, tests_lte.py lines 518-530 and tests_ble.py
lines 66-77: malformed entries (missing or unparsable span/rbw/vbw, raising
in int()/float()) and non-positive entries are skipped; a missing delay
falls back to the default. -/
def validateZooms (delay_default : ℚ) (raw : Option (List RawZoom)) : List ZoomPass :=
  match raw with
  | none => []
  | some l => l.filterMap fun z =>
      match z.span_hz, z.rbw_hz, z.vbw_hz with
      | some s, some r, some v =>
        if 0 < s ∧ 0 < r ∧ 0 < v then some ⟨s, r, v, z.delay_s.getD delay_default⟩
        else none
      | _, _, _ => none

/-- FALLBACK_ZOOMS of tests_lora.py lines 24-28 (0.20 s = 1/5). -/
def lora_FALLBACK_ZOOMS : List ZoomPass :=
  [⟨2000000, 30000, 100000, 1 / 5⟩, ⟨200000, 10000, 30000, 1 / 5⟩,
   ⟨20000, 1000, 3000, 1 / 5⟩]

/-- FALLBACK_ZOOMS of tests_lte.py lines 510-514 (the second, effective
definition in that file; identical values to the LoRa list). -/

def lte_FALLBACK_ZOOMS : List ZoomPass :=
  [⟨2000000, 30000, 100000, 1 / 5⟩, ⟨200000, 10000, 30000, 1 / 5⟩,
   ⟨20000, 1000, 3000, 1 / 5⟩]

/-- load_zooms_from_yaml of tests_lora.py lines 131-151. -/
def load_zooms_from_yaml (delay_default : ℚ) (raw : Option (List RawZoom)) :
    List ZoomPass :=
  let zooms := validateZooms delay_default raw
  if zooms ≠ [] then zooms else lora_FALLBACK_ZOOMS

/-- load_lte_zooms of tests_lte.py lines 516-531 (second, effective
definition). -/

def load_lte_zooms (delay_default : ℚ) (raw : Option (List RawZoom)) :
    List ZoomPass :=
  let zooms := validateZooms delay_default raw
  if zooms ≠ [] then zooms else lte_FALLBACK_ZOOMS

/-- load_ble_zooms_from_yaml of tests_ble.py lines 59-85; its fallback list
(lines 81-85) uses 300 kHz RBW in the first pass and 300 kHz VBW in the
second pass, and the default delay instead of 0.20 s. -/
def load_ble_zooms_from_yaml (delay_default : ℚ) (raw : Option (List RawZoom)) :
    List ZoomPass :=
  let zooms := validateZooms delay_default raw
  if zooms ≠ [] then zooms
  else [⟨2000000, 300000, 100000, delay_default⟩, ⟨200000, 10000, 300000, delay_default⟩,
        ⟨20000, 1000, 3000, delay_default⟩]

/-- Outcome of one awaited foreground operation inside a streaming test
generator: it returns normally, raises an Exception, or the consumer's
cancellation is delivered at that await (asyncio.CancelledError). -/
inductive Outcome : Type where
  | ok : Outcome
  | exc : Outcome
  | cancel : Outcome
deriving DecidableEq, Repr

/-- How a program fragment finished: normally, via a return statement, by
an Exception, or by a propagating CancelledError. -/
inductive Ctl : Type where
  | ok : Ctl
  | ret : Ctl
  | exc : Ctl
  | cancel : Ctl
deriving DecidableEq, Repr

/-- Shape of an emitted event: the type tag of the evt(...) dictionaries,
with step key and status kept (other payloads do not influence control
flow or ordering). -/
inductive EvTag : Type where
  | start : EvTag
  | step (key status : String) : EvTag
  | log : EvTag
  | result : EvTag
  | error : EvTag
  | done : EvTag
deriving DecidableEq, Repr

/-- State of one modelled run of a streaming generator.
env feeds one Outcome to each awaited (or fallible synchronous) foreground
operation in program order; an exhausted list means the operation succeeds.
cleanupEnv feeds the best-effort cleanup awaits that run while the
generator is already unwinding; the consumer cancels at most once, so these
can raise an Exception but are not themselves cancelled.
conds feeds data-dependent branch decisions (exhausted list means true).
The three flags model the modem_on_done / cw_on / cleanup_done locals of
the LTE streams. -/
structure PSt where
  env : List Outcome
  cleanupEnv : List Bool
  conds : List Bool
  modemOn : Bool
  cwOn : Bool
  cleanupDone : Bool
deriving DecidableEq, Repr

/-- A program fragment: from a state, the events it yields in order, how it
finished, and the successor state. -/
abbrev Prog : Type := PSt → List EvTag × Ctl × PSt

/-- Yield one event. -/
def emit (e : EvTag) : Prog := fun s => ([e], Ctl.ok, s)

/-- No-op statement. -/
def skip : Prog := fun s => ([], Ctl.ok, s)

/-- A raise statement (data-dependent raises use this behind branch). -/
def raiseExc : Prog := fun s => ([], Ctl.exc, s)

/-- A return statement inside the generator body. -/
def pret : Prog := fun s => ([], Ctl.ret, s)

/-- One awaited foreground operation, consuming the next Outcome. -/
def call : Prog := fun s =>
  match s.env with
  | [] => ([], Ctl.ok, s)
  | o :: rest =>
    ([], (match o with
          | Outcome.ok => Ctl.ok
          | Outcome.exc => Ctl.exc
          | Outcome.cancel => Ctl.cancel), { s with env := rest })

/-- One best-effort cleanup await during unwinding, consuming the next
cleanupEnv entry (true means it raises an Exception). -/
def ccall : Prog := fun s =>
  match s.cleanupEnv with
  | [] => ([], Ctl.ok, s)
  | b :: rest => ([], if b then Ctl.exc else Ctl.ok, { s with cleanupEnv := rest })

/-- Sequential composition: run q only when p finished normally. -/
def seq (p q : Prog) : Prog := fun s =>
  if (p s).2.1 = Ctl.ok
  then ((p s).1 ++ (q (p s).2.2).1, (q (p s).2.2).2.1, (q (p s).2.2).2.2)
  else p s

/-- A data-dependent two-way branch, consuming the next conds entry. -/
def branch (t e : Prog) : Prog := fun s =>
  match s.conds with
  | [] => t s
  | b :: rest => (if b then t else e) { s with conds := rest }

/-- A try/except-Exception-pass wrapper (CancelledError passes through). -/
def attempt (p : Prog) : Prog := fun s =>
  if (p s).2.1 = Ctl.exc then ((p s).1, Ctl.ok, (p s).2.2) else p s

/-- A try/except-Exception-handler wrapper: on Exception run the handler. -/
def orElseE (p q : Prog) : Prog := fun s =>
  if (p s).2.1 = Ctl.exc
  then ((p s).1 ++ (q (p s).2.2).1, (q (p s).2.2).2.1, (q (p s).2.2).2.2)
  else p s

/-- A try/finally wrapper: fin always runs; an abnormal finish of fin
replaces the control of the body. -/
def pyFinally (body fin : Prog) : Prog := fun s =>
  ((body s).1 ++ (fin (body s).2.2).1,
   if (fin (body s).2.2).2.1 = Ctl.ok then (body s).2.1 else (fin (body s).2.2).2.1,
   (fin (body s).2.2).2.2)

/-- An except-CancelledError handler that ends by re-raising (the handler
runs, then the CancelledError keeps propagating). -/
def pyCatchCancel (body handler : Prog) : Prog := fun s =>
  if (body s).2.1 = Ctl.cancel
  then ((body s).1 ++ (handler (body s).2.2).1,
        if (handler (body s).2.2).2.1 = Ctl.ok then Ctl.cancel
        else (handler (body s).2.2).2.1,
        (handler (body s).2.2).2.2)
  else body s

/-- Record that modem_on_done was set. -/
def setModemOn : Prog := fun s => ([], Ctl.ok, { s with modemOn := true })

/-- Record that cw_on was set. -/
def setCwOn : Prog := fun s => ([], Ctl.ok, { s with cwOn := true })

/-- Record that cleanup_done was set. -/
def setCleanupDone : Prog := fun s => ([], Ctl.ok, { s with cleanupDone := true })

/-- An if-statement on the modem_on_done flag. -/
def ifModemOn (t : Prog) : Prog := fun s => if s.modemOn then t s else skip s

/-- An if-statement on the cw_on flag. -/
def ifCwOn (t : Prog) : Prog := fun s => if s.cwOn then t s else skip s

/-- An if-statement on modem_on_done and not cleanup_done. -/
def ifModemNotCleaned (t : Prog) : Prog := fun s =>
  if s.modemOn ∧ ¬ s.cleanupDone then t s else skip s

/-- A loop body repeated k times (zoom passes, accumulation sleeps). -/
def loops (p : Prog) : Nat → Prog
  | 0 => skip
  | k + 1 => seq p (loops p k)

/-- Lift an Except-valued synchronous computation to a raise or a no-op. -/
def exceptToProg {α β : Type} (x : Except α β) : Prog := fun s =>
  ([], (match x with | .ok _ => Ctl.ok | .error _ => Ctl.exc), s)

/-- apply_analyzer_setup (tests_common.py lines 86-138): set center
frequency, then optionally span; rbw, vbw and ref level each inside a
try/except-pass; the ref-level offset (swallowed); and the peak detector
(swallowed).  Which optional settings are configured is data-dependent. -/
def apply_analyzer_setup : Prog :=
  seq call <|
  seq (branch call skip) <|
  seq (branch (attempt call) skip) <|
  seq (branch (attempt call) skip) <|
  seq (branch (attempt call) skip) <|
  seq (attempt call) <|
  branch (attempt call) skip

/-- zoom_and_center (tests_common.py lines 140-161): set span / rbw / vbw
with settle sleeps, peak search, settle, marker-to-center inside
try/except-pass, settle. -/
def zoom_and_center : Prog :=
  seq call <| seq call <| seq call <| seq call <| seq call <| seq call <|
  seq call <| seq call <| seq (attempt call) call

/-- The connect retry loop of managed_ble (tests_common.py lines 56-65):
three attempts with backoff sleeps in between; the last failure re-raises.
-/
def retryConnect3 : Prog :=
  orElseE call (seq call (orElseE call (seq call call)))

/-- managed_ble (tests_common.py lines 50-72): connect with retry, run the
body, and always disconnect best-effort in the context-manager finally. -/
def managed_ble (body : Prog) : Prog :=
  seq retryConnect3 (pyFinally body (attempt call))

/-- Body of run_tx_power_stream (tests_lora.py lines 66-112): start event,
analyzer connect and configure, settle, DUT connect, CW on, measure, result
event, CW off with its finally-marked done step. -/
def loraTxMain : Prog :=
  seq (emit EvTag.start) <|
  seq (emit (EvTag.step "connectAnalyzer" "start")) <| seq call <|
  seq (emit (EvTag.step "connectAnalyzer" "done")) <|
  seq (emit (EvTag.step "configureAnalyzer" "start")) <| seq apply_analyzer_setup <|
  seq (emit (EvTag.step "configureAnalyzer" "done")) <| seq call <|
  seq (emit (EvTag.step "connectDut" "start")) <|
  managed_ble (
    seq (emit (EvTag.step "connectDut" "done")) <|
    seq (emit (EvTag.step "cwOn" "start")) <| seq call <| seq call <|
    seq (emit (EvTag.step "cwOn" "done")) <|
    seq (emit (EvTag.step "measure" "start")) <| seq call <| seq call <| seq call <|
    seq (emit (EvTag.step "measure" "done")) <|
    seq (emit EvTag.result) <|
    seq (emit (EvTag.step "cwOff" "start")) <|
    pyFinally call (emit (EvTag.step "cwOff" "done")))

/-- run_tx_power_stream (tests_lora.py lines 48-127): try body, except
CancelledError spawn background tasks and re-raise, except Exception yield
the error event, finally yield done. -/
def run_tx_power_stream : Prog :=
  pyFinally (pyCatchCancel (orElseE loraTxMain (emit EvTag.error)) skip)
    (emit EvTag.done)

/-- Body of run_freq_accuracy_stream (tests_lora.py lines 190-247), with k
zoom passes (one log event and one zoom_and_center each). -/
def loraFaMain (k : Nat) : Prog :=
  seq (emit EvTag.start) <|
  seq (emit (EvTag.step "connectAnalyzer" "start")) <| seq call <|
  seq (emit (EvTag.step "connectAnalyzer" "done")) <|
  seq (emit (EvTag.step "configureAnalyzer" "start")) <| seq apply_analyzer_setup <|
  seq (emit (EvTag.step "configureAnalyzer" "done")) <| seq call <|
  seq (emit (EvTag.step "connectDut" "start")) <|
  managed_ble (
    seq (emit (EvTag.step "connectDut" "done")) <|
    seq (emit (EvTag.step "cwOn" "start")) <| seq call <| seq call <|
    seq (emit (EvTag.step "cwOn" "done")) <|
    seq (loops (seq (emit EvTag.log) zoom_and_center) k) <|
    seq (emit (EvTag.step "measure" "start")) <| seq call <| seq call <| seq call <|
    seq (emit (EvTag.step "measure" "done")) <|
    seq (emit EvTag.result) <|
    seq (emit (EvTag.step "cwOff" "start")) <|
    pyFinally call (emit (EvTag.step "cwOff" "done")))

/-- run_freq_accuracy_stream (tests_lora.py lines 173-260). -/
def run_freq_accuracy_stream (k : Nat) : Prog :=
  pyFinally (pyCatchCancel (orElseE (loraFaMain k) (emit EvTag.error)) skip)
    (emit EvTag.done)

/-- The inner measure block of run_obw_stream (tests_lora.py lines 402-452):
max-hold, the accumulation sleeps (kAcc of them), trace fetch (an empty or
too-short trace raising there), the span query (re-raised as RuntimeError),
the sweep-points query with fallback, the local OBW computation whose
raises are data-dependent, the measure-done step and the result event. -/
def obwMeasureBlock (kAcc : Nat) : Prog :=
  seq call <| seq (emit EvTag.log) <| seq (loops call kAcc) <| seq call <| seq call <|
  seq (attempt call) <| seq (branch skip raiseExc) <|
  seq (emit (EvTag.step "measure" "done")) <| emit EvTag.result

/-- Body of run_obw_stream (tests_lora.py lines 335-465): up to the CW-off
step pair; an Exception inside the measure block yields the explicit error
event and returns from the generator. -/
def loraObwMain (kAcc : Nat) : Prog :=
  seq (emit EvTag.start) <|
  seq (emit (EvTag.step "connectAnalyzer" "start")) <| seq call <|
  seq (emit (EvTag.step "connectAnalyzer" "done")) <|
  seq (emit (EvTag.step "configureAnalyzer" "start")) <| seq apply_analyzer_setup <|
  seq (emit (EvTag.step "configureAnalyzer" "done")) <| seq call <|
  seq (emit (EvTag.step "connectDut" "start")) <|
  managed_ble (
    seq (emit (EvTag.step "connectDut" "done")) <|
    seq (emit (EvTag.step "cwOn" "start")) <| seq call <| seq call <|
    seq (emit (EvTag.step "cwOn" "done")) <|
    seq (emit (EvTag.step "measure" "start")) <|
    seq (orElseE (obwMeasureBlock kAcc) (seq (emit EvTag.error) pret)) <|
    seq (emit (EvTag.step "cwOff" "start")) <|
    pyFinally call (emit (EvTag.step "cwOff" "done")))

/-- run_obw_stream (tests_lora.py lines 316-506): the CancelledError
handler awaits a best-effort clear-write and disconnect; the finally
performs three best-effort cleanup awaits before yielding done. -/
def run_obw_stream (kAcc : Nat) : Prog :=
  pyFinally
    (pyCatchCancel (orElseE (loraObwMain kAcc) (emit EvTag.error))
      (seq (attempt ccall) (attempt ccall)))
    (seq (attempt ccall) <| seq (attempt ccall) <| seq (attempt ccall) <|
      emit EvTag.done)

/-- normalize_lte_map + resolve_earfcn_or_freq (tests_lte.py lines 30-57):
accept an EARFCN key of the map or a frequency matching within 2 kHz and
return the resolved pair; raise ValueError when the map is empty or
nothing matches. -/
def resolve_earfcn_or_freq (value : ℤ) (lte_map : List (ℤ × ℤ)) :
    Except String (ℤ × ℤ) :=
  if lte_map = [] then .error "LTE map is empty"
  else
    match lte_map.lookup value with
    | some f => .ok (value, f)
    | none =>
      match lte_map.find? (fun p => decide (p.2 = value ∨ (p.2 - value).natAbs ≤ 2000)) with
      | some p => .ok p
      | none => .error "Unsupported LTE EARFCN or frequency"

/-- The retry wrapper with attempts = 2 (tests_lte.py lines 63-75): one
call, on Exception a backoff sleep and a second call whose failure
propagates. -/
def retry2 : Prog := orElseE call (seq call call)

/-- The DUT section of run_lte_tx_power_stream (tests_lte.py lines
163-239), run inside managed_ble under the inner try: modem on (with
retry and flag), safety abort, CW on (with retry, settle and flag),
measure, then the in-line teardown steps guarded by the flags, the
disconnect, the cleanup_done flag and the result event. -/
def lteTxDutBody : Prog :=
  seq (emit (EvTag.step "connectDut" "done")) <|
  seq (emit (EvTag.step "modemOn" "start")) <| seq retry2 <| seq setModemOn <|
  seq (emit (EvTag.step "modemOn" "done")) <|
  seq (emit (EvTag.step "abortTest" "start")) <| seq (attempt call) <|
  seq (emit (EvTag.step "abortTest" "done")) <|
  seq (emit (EvTag.step "cwOn" "start")) <| seq retry2 <| seq call <| seq setCwOn <|
  seq (emit (EvTag.step "cwOn" "done")) <|
  seq (emit (EvTag.step "measure" "start")) <| seq call <| seq call <| seq call <|
  seq (emit (EvTag.step "measure" "done")) <|
  seq (ifModemOn (
    seq (emit (EvTag.step "abortTest" "start")) <| seq (attempt call) <|
    seq (emit (EvTag.step "abortTest" "done")) <|
    seq (emit (EvTag.step "cwOff" "start")) <| emit (EvTag.step "cwOff" "done"))) <|
  seq (ifModemOn (
    seq (emit (EvTag.step "modemOff" "start")) <| seq (attempt call) <|
    emit (EvTag.step "modemOff" "done"))) <|
  seq (emit (EvTag.step "disconnectDut" "start")) <| seq (attempt call) <|
  seq (emit (EvTag.step "disconnectDut" "done")) <| seq setCleanupDone <|
  emit EvTag.result

/-- The except-Exception teardown of the inner try (tests_lte.py lines
241-272): if the modem was turned on and cleanup has not run, abort (when
CW is on), modem off and disconnect, each best-effort with its step
events; then the error event. -/
def lteExcTeardown : Prog :=
  seq (ifModemNotCleaned (
    seq (ifCwOn (
      seq (emit (EvTag.step "abortTest" "start")) <| seq (attempt call) <|
      emit (EvTag.step "abortTest" "done"))) <|
    seq (emit (EvTag.step "modemOff" "start")) <| seq (attempt call) <|
    seq (emit (EvTag.step "modemOff" "done")) <|
    seq (emit (EvTag.step "disconnectDut" "start")) <| seq (attempt call) <|
    emit (EvTag.step "disconnectDut" "done"))) <|
  emit EvTag.error

/-- run_lte_tx_power_stream (tests_lte.py lines 110-283): the EARFCN
resolution raises inside the outer try (which has no except-Exception
clause, so such an exception still reaches the finally and then
propagates); the CancelledError handler only spawns background tasks. -/
def run_lte_tx_power_stream (earfcn : ℤ) (lte_map : List (ℤ × ℤ)) : Prog :=
  pyFinally
    (pyCatchCancel (
      seq (exceptToProg (resolve_earfcn_or_freq earfcn lte_map)) <|
      seq (emit EvTag.start) <|
      seq (emit (EvTag.step "connectAnalyzer" "start")) <| seq call <|
      seq (emit (EvTag.step "connectAnalyzer" "done")) <|
      seq (emit (EvTag.step "configureAnalyzer" "start")) <| seq apply_analyzer_setup <|
      seq (emit (EvTag.step "configureAnalyzer" "done")) <| seq call <|
      seq (emit (EvTag.step "connectDut" "start")) <|
      orElseE (managed_ble lteTxDutBody) lteExcTeardown)
      skip)
    (emit EvTag.done)

/-- The DUT section of the effective run_lte_frequency_accuracy_stream
(tests_lte.py lines 607-685, the second definition in the file, which
shadows the first): like the TxPower section with k zoom passes between
CW on and the measurement. -/
def lteFaDutBody (k : Nat) : Prog :=
  seq (emit (EvTag.step "connectDut" "done")) <|
  seq (emit (EvTag.step "modemOn" "start")) <| seq retry2 <| seq setModemOn <|
  seq (emit (EvTag.step "modemOn" "done")) <|
  seq (emit (EvTag.step "abortTest" "start")) <| seq (attempt call) <|
  seq (emit (EvTag.step "abortTest" "done")) <|
  seq (emit (EvTag.step "cwOn" "start")) <| seq retry2 <| seq call <| seq setCwOn <|
  seq (emit (EvTag.step "cwOn" "done")) <|
  seq (loops (seq (emit EvTag.log) zoom_and_center) k) <|
  seq (emit (EvTag.step "measure" "start")) <| seq call <| seq call <| seq call <|
  seq (emit (EvTag.step "measure" "done")) <|
  seq (ifModemOn (
    seq (emit (EvTag.step "abortTest" "start")) <| seq (attempt call) <|
    seq (emit (EvTag.step "abortTest" "done")) <|
    seq (emit (EvTag.step "cwOff" "start")) <| emit (EvTag.step "cwOff" "done"))) <|
  seq (ifModemOn (
    seq (emit (EvTag.step "modemOff" "start")) <| seq (attempt call) <|
    emit (EvTag.step "modemOff" "done"))) <|
  seq (emit (EvTag.step "disconnectDut" "start")) <| seq (attempt call) <|
  seq (emit (EvTag.step "disconnectDut" "done")) <| seq setCleanupDone <|
  emit EvTag.result

/-- run_lte_frequency_accuracy_stream (tests_lte.py lines 552-724,
effective second definition). -/
def run_lte_frequency_accuracy_stream (earfcn : ℤ) (lte_map : List (ℤ × ℤ))
    (k : Nat) : Prog :=
  pyFinally
    (pyCatchCancel (
      seq (exceptToProg (resolve_earfcn_or_freq earfcn lte_map)) <|
      seq (emit EvTag.start) <|
      seq (emit (EvTag.step "connectAnalyzer" "start")) <| seq call <|
      seq (emit (EvTag.step "connectAnalyzer" "done")) <|
      seq (emit (EvTag.step "configureAnalyzer" "start")) <| seq apply_analyzer_setup <|
      seq (emit (EvTag.step "configureAnalyzer" "done")) <| seq call <|
      seq (emit (EvTag.step "connectDut" "start")) <|
      orElseE (managed_ble (lteFaDutBody k)) lteExcTeardown)
      skip)
    (emit EvTag.done)

/-- resolve_ble_channel_to_freq_hz (tests_ble.py lines 30-34): channel 0-39
maps to 2402 MHz + 2 MHz per step; otherwise ValueError. -/
def resolve_ble_channel_to_freq_hz (channel : ℤ) : Except String ℤ :=
  if 0 ≤ channel ∧ channel ≤ 39 then .ok (2402000000 + channel * 2000000)
  else .error "Unsupported BLE channel"

/-- parse_tx_power (tests_ble.py lines 36-43): an integer in 6..31,
otherwise ValueError. -/
def parse_tx_power (v : ℤ) : Except String ℤ :=
  if 6 ≤ v ∧ v ≤ 31 then .ok v else .error "Power parameter out of range"

/-- The read-current-power section (tests_ble.py lines 166-183): the get
either succeeds or the fallback get runs best-effort; the done step is
emitted either way. -/
def bleReadPower : Prog :=
  seq (emit (EvTag.step "readBlePower" "start")) <|
  orElseE (seq call (emit (EvTag.step "readBlePower" "done")))
    (seq (attempt call) (emit (EvTag.step "readBlePower" "done")))

/-- One reconnect attempt (tests_ble.py lines 206-218): start step,
connect, a best-effort read-back-and-correct block, done step. -/
def bleReconnectAttempt : Prog :=
  seq (emit (EvTag.step "reconnectDut" "start")) <|
  seq call <|
  seq (attempt (seq call (branch (seq call call) skip))) <|
  emit (EvTag.step "reconnectDut" "done")

/-- The failure path of one reconnect attempt (tests_ble.py lines 219-222):
error step and backoff sleep. -/
def bleReconnectFail : Prog :=
  seq (emit (EvTag.step "reconnectDut" "error")) call

/-- The reconnect loop with reconnect_attempts = 4 (tests_ble.py lines
204-224); if all four attempts fail a RuntimeError is raised. -/
def bleReconnect : Prog :=
  orElseE bleReconnectAttempt (seq bleReconnectFail <|
    orElseE bleReconnectAttempt (seq bleReconnectFail <|
      orElseE bleReconnectAttempt (seq bleReconnectFail <|
        orElseE bleReconnectAttempt (seq bleReconnectFail raiseExc))))

/-- The set-power path taken when the DUT power differs from the request
(tests_ble.py lines 186-224): set (with a reconnect-and-retry fallback),
cwOn done step, save-and-reset with its steps, the reset wait, and the
reconnect loop. -/
def bleSetPowerPath : Prog :=
  seq (orElseE call (seq (attempt call) <| seq call <| seq call call)) <|
  seq (emit (EvTag.step "cwOn" "done")) <|
  seq (emit (EvTag.step "saveReset" "start")) <| seq call <|
  seq (emit (EvTag.step "saveReset" "done")) <|
  seq call <|
  bleReconnect

/-- The fast path taken when the DUT already reports the requested power
(tests_ble.py lines 226-231): the skipped stages still emit their steps. -/
def bleSkipPowerPath : Prog :=
  seq (emit (EvTag.step "cwOn" "done")) <|
  seq (emit (EvTag.step "saveReset" "start")) <| seq (emit (EvTag.step "saveReset" "done")) <|
  seq (emit (EvTag.step "reconnectDut" "start")) <| emit (EvTag.step "reconnectDut" "done")

/-- Body of run_ble_tx_power_stream after the start event (tests_ble.py
lines 137-266). -/
def bleTxMain : Prog :=
  seq (emit (EvTag.step "connectAnalyzer" "start")) <| seq call <|
  seq (emit (EvTag.step "connectAnalyzer" "done")) <|
  seq (emit (EvTag.step "configureAnalyzer" "start")) <| seq apply_analyzer_setup <|
  seq (emit (EvTag.step "configureAnalyzer" "done")) <| seq call <|
  seq (emit (EvTag.step "connectDut" "start")) <| seq call <|
  seq (emit (EvTag.step "connectDut" "done")) <|
  seq (emit (EvTag.step "cwOn" "start")) <|
  seq bleReadPower <|
  seq (branch bleSetPowerPath bleSkipPowerPath) <|
  seq (attempt call) <|
  seq (emit (EvTag.step "toneStart" "start")) <| seq call <|
  seq (branch (emit (EvTag.step "toneStart" "done")) (emit (EvTag.step "toneStart" "error"))) <|
  seq call <|
  seq (emit (EvTag.step "measure" "start")) <| seq call <| seq call <| seq call <|
  seq (emit (EvTag.step "measure" "done")) <|
  emit EvTag.result

/-- run_ble_tx_power_stream (tests_ble.py lines 90-288).  The channel and
power parameters are validated at lines 119-120, before the first yield and
outside any try/finally: an invalid parameter raises out of the generator
before any event is emitted.  On the other paths the finally emits the
close step and the done event after two best-effort disconnects. -/
def run_ble_tx_power_stream (power channel : ℤ) : Prog := fun s =>
  match resolve_ble_channel_to_freq_hz channel, parse_tx_power power with
  | .ok _, .ok _ =>
    (seq (emit EvTag.start) <|
      pyFinally (pyCatchCancel (orElseE bleTxMain (emit EvTag.error)) skip)
        (seq (attempt ccall) <| seq (attempt ccall) <|
          seq (emit (EvTag.step "close" "done")) <| emit EvTag.done)) s
  | _, _ => ([], Ctl.exc, s)

/-- One BLE frequency-accuracy zoom pass (tests_ble.py lines 384-408):
log, apply analyzer params, settle, peak search, best-effort
marker-to-center. -/
def bleFaZoomPass : Prog :=
  seq (emit EvTag.log) <| seq apply_analyzer_setup <| seq call <|
  seq call <| attempt call

/-- Body of run_ble_frequency_accuracy_stream after the start event
(tests_ble.py lines 342-438), with k zoom passes. -/
def bleFaMain (k : Nat) : Prog :=
  seq (emit (EvTag.step "connectAnalyzer" "start")) <| seq call <|
  seq (emit (EvTag.step "connectAnalyzer" "done")) <| seq (emit EvTag.log) <|
  seq (emit (EvTag.step "configureAnalyzer" "start")) <| seq apply_analyzer_setup <|
  seq (emit (EvTag.step "configureAnalyzer" "done")) <| seq call <|
  seq (branch (emit EvTag.log) skip) <|
  seq (emit (EvTag.step "connectDut" "start")) <| seq call <|
  seq (emit (EvTag.step "connectDut" "done")) <| seq (emit EvTag.log) <|
  seq (emit (EvTag.step "cwOn" "start")) <| seq call <|
  seq (emit (EvTag.step "cwOn" "done")) <| seq (emit EvTag.log) <|
  seq (loops bleFaZoomPass k) <|
  seq call <|
  seq (emit (EvTag.step "measure" "start")) <| seq call <|
  seq (emit (EvTag.step "measure" "done")) <| seq (emit EvTag.log) <|
  seq (branch (emit EvTag.log) (emit EvTag.log)) <|
  emit EvTag.result

/-- run_ble_frequency_accuracy_stream (tests_ble.py lines 293-455).  The
channel is validated at line 322, before the first yield and outside any
try/finally.  The finally best-effort disconnects the DUT (logging on
success), then emits the close step and the done event. -/
def run_ble_frequency_accuracy_stream (channel : ℤ) (k : Nat) : Prog := fun s =>
  match resolve_ble_channel_to_freq_hz channel with
  | .ok _ =>
    (seq (emit EvTag.start) <|
      pyFinally (pyCatchCancel (orElseE (bleFaMain k) (emit EvTag.error)) skip)
        (seq (branch (attempt (seq ccall (emit EvTag.log))) skip) <|
          seq (emit (EvTag.step "close" "done")) <| emit EvTag.done)) s
  | .error _ => ([], Ctl.exc, s)

/-- The property that a fragment never yields the done event. -/
def NoDone (p : Prog) : Prop := ∀ s, EvTag.done ∉ (p s).1

/-- The checked event-ordering property: done appears exactly once and is
the last event. -/
def DoneOnceLast (es : List EvTag) : Prop :=
  es.count EvTag.done = 1 ∧ es.getLast? = some EvTag.done

theorem obwLoop_step_right (lin : List ℚ) (n : Nat) (target : ℚ) (left right : Nat) (acc : ℚ)
    (hw : acc < target ∧ (0 < left ∨ right < n - 1))
    (hr : (if 0 < left then lin.getD (left - 1) 0 else -1) <
            (if right < n - 1 then lin.getD (right + 1) 0 else -1) ∧ right < n - 1) :
    obwLoop lin n target left right acc =
      obwLoop lin n target left (right + 1) (acc + lin.getD (right + 1) 0) := by
  conv_lhs => rw [obwLoop]
  rw [dif_pos hw]
  simp only []
  rw [dif_pos hr]

theorem obwLoop_step_left (lin : List ℚ) (n : Nat) (target : ℚ) (left right : Nat) (acc : ℚ)
    (hw : acc < target ∧ (0 < left ∨ right < n - 1))
    (hr : ¬((if 0 < left then lin.getD (left - 1) 0 else -1) <
            (if right < n - 1 then lin.getD (right + 1) 0 else -1) ∧ right < n - 1))
    (hl : 0 < left) :
    obwLoop lin n target left right acc =
      obwLoop lin n target (left - 1) right (acc + lin.getD (left - 1) 0) := by
  conv_lhs => rw [obwLoop]
  rw [dif_pos hw]
  simp only []
  rw [dif_neg hr, dif_pos hl]

theorem obwLoop_stuck (lin : List ℚ) (n : Nat) (target : ℚ) (left right : Nat) (acc : ℚ)
    (hw : ¬(acc < target ∧ (0 < left ∨ right < n - 1))) :
    obwLoop lin n target left right acc = (left, right, acc) := by
  rw [obwLoop, dif_neg hw]

theorem obwLoop_break (lin : List ℚ) (n : Nat) (target : ℚ) (left right : Nat) (acc : ℚ)
    (hw : acc < target ∧ (0 < left ∨ right < n - 1))
    (hr : ¬((if 0 < left then lin.getD (left - 1) 0 else -1) <
            (if right < n - 1 then lin.getD (right + 1) 0 else -1) ∧ right < n - 1))
    (hl : ¬ 0 < left) :
    obwLoop lin n target left right acc = (left, right, acc) := by
  rw [obwLoop, dif_pos hw]
  simp only []
  rw [dif_neg hr, dif_neg hl]

theorem obwLoop_grows (lin : List ℚ) (n : Nat) (target : ℚ) (left right : Nat) (acc : ℚ) :
    (obwLoop lin n target left right acc).1 ≤ left ∧
      right ≤ (obwLoop lin n target left right acc).2.1 := by
  by_cases hw : acc < target ∧ (0 < left ∨ right < n - 1)
  · by_cases hr : (if 0 < left then lin.getD (left - 1) 0 else -1) <
        (if right < n - 1 then lin.getD (right + 1) 0 else -1) ∧ right < n - 1
    · rw [obwLoop_step_right lin n target left right acc hw hr]
      have ih := obwLoop_grows lin n target left (right + 1) (acc + lin.getD (right + 1) 0)
      omega
    · by_cases hl : 0 < left
      · rw [obwLoop_step_left lin n target left right acc hw hr hl]
        have ih := obwLoop_grows lin n target (left - 1) right (acc + lin.getD (left - 1) 0)
        omega
      · rw [obwLoop_break lin n target left right acc hw hr hl]
        exact ⟨le_rfl, le_rfl⟩
  · rw [obwLoop_stuck lin n target left right acc hw]
    exact ⟨le_rfl, le_rfl⟩
termination_by (n - 1 - right) + left
decreasing_by
  · have h2 := hr.2; omega
  · omega

theorem obwLoop_absorb (lin : List ℚ) (n : Nat) (t1 t2 : ℚ) (h12 : t1 ≤ t2)
    (left right : Nat) (acc : ℚ) :
    obwLoop lin n t2 left right acc =
      obwLoop lin n t2 (obwLoop lin n t1 left right acc).1
        (obwLoop lin n t1 left right acc).2.1 (obwLoop lin n t1 left right acc).2.2 := by
  by_cases hw : acc < t1 ∧ (0 < left ∨ right < n - 1)
  · have hw2 : acc < t2 ∧ (0 < left ∨ right < n - 1) := ⟨lt_of_lt_of_le hw.1 h12, hw.2⟩
    by_cases hr : (if 0 < left then lin.getD (left - 1) 0 else -1) <
        (if right < n - 1 then lin.getD (right + 1) 0 else -1) ∧ right < n - 1
    · rw [obwLoop_step_right lin n t1 left right acc hw hr,
          obwLoop_step_right lin n t2 left right acc hw2 hr]
      exact obwLoop_absorb lin n t1 t2 h12 left (right + 1) (acc + lin.getD (right + 1) 0)
    · by_cases hl : 0 < left
      · rw [obwLoop_step_left lin n t1 left right acc hw hr hl,
            obwLoop_step_left lin n t2 left right acc hw2 hr hl]
        exact obwLoop_absorb lin n t1 t2 h12 (left - 1) right (acc + lin.getD (left - 1) 0)
      · rw [obwLoop_break lin n t1 left right acc hw hr hl]
  · rw [obwLoop_stuck lin n t1 left right acc hw]
termination_by (n - 1 - right) + left
decreasing_by
  · have h2 := hr.2; omega
  · omega

theorem drvObwLoop_step_right (lin : List ℚ) (n : Nat) (target : ℚ) (left right : Nat) (acc : ℚ)
    (hw : acc < target ∧ (0 < left ∨ right < n - 1))
    (hr : (if 0 < left then lin.getD (left - 1) 0 else -1) <
            (if right < n - 1 then lin.getD (right + 1) 0 else -1) ∧ right < n - 1) :
    drvObwLoop lin n target left right acc =
      drvObwLoop lin n target left (right + 1) (acc + lin.getD (right + 1) 0) := by
  conv_lhs => rw [drvObwLoop]
  rw [dif_pos hw]
  simp only []
  rw [dif_pos hr]

theorem drvObwLoop_step_left (lin : List ℚ) (n : Nat) (target : ℚ) (left right : Nat) (acc : ℚ)
    (hw : acc < target ∧ (0 < left ∨ right < n - 1))
    (hr : ¬((if 0 < left then lin.getD (left - 1) 0 else -1) <
            (if right < n - 1 then lin.getD (right + 1) 0 else -1) ∧ right < n - 1))
    (hl : 0 < left) :
    drvObwLoop lin n target left right acc =
      drvObwLoop lin n target (left - 1) right (acc + lin.getD (left - 1) 0) := by
  conv_lhs => rw [drvObwLoop]
  rw [dif_pos hw]
  simp only []
  rw [dif_neg hr, dif_pos hl]

theorem drvObwLoop_stuck (lin : List ℚ) (n : Nat) (target : ℚ) (left right : Nat) (acc : ℚ)
    (hw : ¬(acc < target ∧ (0 < left ∨ right < n - 1))) :
    drvObwLoop lin n target left right acc = (left, right, acc) := by
  rw [drvObwLoop, dif_neg hw]

theorem drvObwLoop_break (lin : List ℚ) (n : Nat) (target : ℚ) (left right : Nat) (acc : ℚ)
    (hw : acc < target ∧ (0 < left ∨ right < n - 1))
    (hr : ¬((if 0 < left then lin.getD (left - 1) 0 else -1) <
            (if right < n - 1 then lin.getD (right + 1) 0 else -1) ∧ right < n - 1))
    (hl : ¬ 0 < left) :
    drvObwLoop lin n target left right acc = (left, right, acc) := by
  rw [drvObwLoop, dif_pos hw]
  simp only []
  rw [dif_neg hr, dif_neg hl]

theorem drvObwLoop_eq_obwLoop (lin : List ℚ) (n : Nat) (target : ℚ)
    (left right : Nat) (acc : ℚ) :
    drvObwLoop lin n target left right acc = obwLoop lin n target left right acc := by
  by_cases hw : acc < target ∧ (0 < left ∨ right < n - 1)
  · by_cases hr : (if 0 < left then lin.getD (left - 1) 0 else -1) <
        (if right < n - 1 then lin.getD (right + 1) 0 else -1) ∧ right < n - 1
    · rw [drvObwLoop_step_right lin n target left right acc hw hr,
          obwLoop_step_right lin n target left right acc hw hr]
      exact drvObwLoop_eq_obwLoop lin n target left (right + 1) (acc + lin.getD (right + 1) 0)
    · by_cases hl : 0 < left
      · rw [drvObwLoop_step_left lin n target left right acc hw hr hl,
            obwLoop_step_left lin n target left right acc hw hr hl]
        exact drvObwLoop_eq_obwLoop lin n target (left - 1) right (acc + lin.getD (left - 1) 0)
      · rw [drvObwLoop_break lin n target left right acc hw hr hl,
            obwLoop_break lin n target left right acc hw hr hl]
  · rw [drvObwLoop_stuck lin n target left right acc hw,
        obwLoop_stuck lin n target left right acc hw]
termination_by (n - 1 - right) + left
decreasing_by
  · have h2 := hr.2; omega
  · omega

theorem drvArgmaxFromFirst_eq (best : Nat) (bestv : ℚ) (i : Nat) (l : List ℚ) :
    drvArgmaxFromFirst best bestv i l = argmaxFromFirst best bestv i l := by
  induction l generalizing best bestv i with
  | nil => rfl
  | cons x xs ih =>
    rw [drvArgmaxFromFirst, argmaxFromFirst]
    by_cases h : bestv < x
    · rw [if_pos h, if_pos h, ih]
    · rw [if_neg h, if_neg h, ih]

theorem drvArgmaxFirst_eq (l : List ℚ) : drvArgmaxFirst l = argmaxFirst l := by
  cases l with
  | nil => rfl
  | cons x xs => rw [drvArgmaxFirst, argmaxFirst, drvArgmaxFromFirst_eq]

theorem obw_implementations_agree (dbmToLin : ℚ → ℚ) (vals : List ℚ)
    (span_hz swe_points : ℤ) (pct : ℚ) :
    measure_obw_trace_analysis dbmToLin vals span_hz swe_points pct =
      compute_obw_from_trace dbmToLin vals span_hz swe_points pct := by
  unfold measure_obw_trace_analysis compute_obw_from_trace obwValue obwWindow
  simp only [drvArgmaxFirst_eq, drvObwLoop_eq_obwLoop]

theorem argmaxFromFirst_replicate (c : ℚ) (best i m : ℕ) :
    argmaxFromFirst best c i (List.replicate m c) = best := by
  induction m generalizing i with
  | zero => rfl
  | succ k ih => rw [List.replicate_succ, argmaxFromFirst, if_neg (lt_irrefl c)]; exact ih _

theorem argmaxFirst_replicate (n : ℕ) (c : ℚ) : argmaxFirst (List.replicate n c) = 0 := by
  cases n with
  | zero => rfl
  | succ k => rw [List.replicate_succ, argmaxFirst, argmaxFromFirst_replicate]

theorem getD_replicate (n j : ℕ) (c d : ℚ) (h : j < n) : (List.replicate n c).getD j d = c := by
  induction n generalizing j with
  | zero => omega
  | succ k ih =>
    rw [List.replicate_succ]
    cases j with
    | zero => rfl
    | succ m => simpa using ih m (by omega)

theorem obwLoop_const (n : Nat) (c t : ℚ) (hc : 0 < c) (R : Nat) (hR : R ≤ n - 1)
    (hbefore : ∀ j : Nat, j < R → ((j : ℚ) + 1) * c < t)
    (hstop : t ≤ ((R : ℚ) + 1) * c ∨ R = n - 1)
    (r : Nat) (hr : r ≤ R) :
    obwLoop (List.replicate n c) n t 0 r (((r : ℚ) + 1) * c) =
      (0, R, ((R : ℚ) + 1) * c) := by
  by_cases heq : r = R
  · subst heq
    rcases hstop with hstop | hstop
    · exact obwLoop_stuck _ _ _ _ _ _ (fun h => absurd hstop (not_le.mpr h.1))
    · refine obwLoop_stuck _ _ _ _ _ _ (fun h => ?_)
      rcases h.2 with h2 | h2
      · omega
      · omega
  · have hrR : r < R := by omega
    have hn2 : r < n - 1 := by omega
    have hgd : (List.replicate n c).getD (r + 1) 0 = c := getD_replicate n (r + 1) c 0 (by omega)
    have hw : ((r : ℚ) + 1) * c < t ∧ (0 < 0 ∨ r < n - 1) :=
      ⟨hbefore r hrR, Or.inr hn2⟩
    have hcond : (if 0 < 0 then (List.replicate n c).getD (0 - 1) 0 else -1) <
        (if r < n - 1 then (List.replicate n c).getD (r + 1) 0 else -1) ∧ r < n - 1 := by
      rw [if_neg (lt_irrefl 0), if_pos hn2, hgd]
      exact ⟨lt_trans (by norm_num) hc, hn2⟩
    rw [obwLoop_step_right _ _ _ _ _ _ hw hcond, hgd]
    have hacc : ((r : ℚ) + 1) * c + c = (((r + 1 : ℕ) : ℚ) + 1) * c := by
      push_cast; ring
    rw [hacc]
    exact obwLoop_const n c t hc R hR hbefore hstop (r + 1) (by omega)
termination_by R - r

theorem obwValue_replicate (n : ℕ) (c : ℚ) (hc : 0 < c) (span_hz swe_points : ℤ) (pct : ℚ)
    (R : ℕ) (hn : 1 ≤ n) (hR : R ≤ n - 1)
    (hbefore : ∀ j : ℕ, j < R → ((j : ℚ) + 1) * c < (n : ℚ) * c * (pct / 100))
    (hstop : (n : ℚ) * c * (pct / 100) ≤ ((R : ℚ) + 1) * c ∨ R = n - 1) :
    obwValue (List.replicate n c) span_hz swe_points pct =
      ((max 1 (R : ℤ) : ℤ) : ℚ) * ((span_hz : ℚ) / ((max 1 (swe_points - 1) : ℤ) : ℚ)) := by
  have hloop := obwLoop_const n c ((n : ℚ) * c * (pct / 100)) hc R hR hbefore hstop 0 (by omega)
  simp only [Nat.cast_zero, zero_add, one_mul] at hloop
  unfold obwValue obwWindow
  rw [argmaxFirst_replicate, List.length_replicate, List.sum_replicate,
      getD_replicate n 0 c 0 (by omega)]
  simp only [nsmul_eq_mul]
  rw [hloop]
  norm_num

theorem compute_obw_ok_iff (dbmToLin : ℚ → ℚ) (vals : List ℚ) (span_hz swe_points : ℤ)
    (pct b : ℚ) :
    compute_obw_from_trace dbmToLin vals span_hz swe_points pct = .ok b ↔
      ¬ vals.length < 10 ∧ ¬ (vals.map dbmToLin).sum ≤ 0 ∧
        (0 < obwValue (vals.map dbmToLin) span_hz swe_points pct ∧
          obwValue (vals.map dbmToLin) span_hz swe_points pct ≤ (span_hz : ℚ) * (21 / 20)) ∧
        b = obwValue (vals.map dbmToLin) span_hz swe_points pct := by
  unfold compute_obw_from_trace
  by_cases h1 : vals.length < 10
  · simp [h1]
  · by_cases h2 : (vals.map dbmToLin).sum ≤ 0
    · simp [h1, h2]
    · by_cases h3 : 0 < obwValue (vals.map dbmToLin) span_hz swe_points pct ∧
          obwValue (vals.map dbmToLin) span_hz swe_points pct ≤ (span_hz : ℚ) * (21 / 20)
      · simp [h1, h2, h3, eq_comm]
      · simp [h1, h2, h3]

theorem compute_obw_outOfRange_iff (dbmToLin : ℚ → ℚ) (vals : List ℚ)
    (span_hz swe_points : ℤ) (pct : ℚ) :
    compute_obw_from_trace dbmToLin vals span_hz swe_points pct = .error .outOfRange ↔
      ¬ vals.length < 10 ∧ ¬ (vals.map dbmToLin).sum ≤ 0 ∧
        ¬ (0 < obwValue (vals.map dbmToLin) span_hz swe_points pct ∧
            obwValue (vals.map dbmToLin) span_hz swe_points pct ≤ (span_hz : ℚ) * (21 / 20)) := by
  unfold compute_obw_from_trace
  by_cases h1 : vals.length < 10
  · simp [h1]
  · by_cases h2 : (vals.map dbmToLin).sum ≤ 0
    · simp [h1, h2]
    · by_cases h3 : 0 < obwValue (vals.map dbmToLin) span_hz swe_points pct ∧
          obwValue (vals.map dbmToLin) span_hz swe_points pct ≤ (span_hz : ℚ) * (21 / 20)
      · simp [h1, h2, h3]
      · simp [h1, h2, h3]

/-- Helper for equal-power traces with n below 100: the greedy window covers
the whole trace, so the computed bandwidth is exactly the span. -/
theorem compute_obw_replicate (dbmToLin : ℚ → ℚ) (v : ℚ) (n : ℕ) (span_hz : ℤ)
    (hpos : 0 < dbmToLin v) (h10 : 10 ≤ n) (h100 : n < 100) (hspan : 0 < span_hz) :
    compute_obw_from_trace dbmToLin (List.replicate n v) span_hz (n : ℤ) 99 =
      .ok (span_hz : ℚ) := by
  have hmap : (List.replicate n v).map dbmToLin = List.replicate n (dbmToLin v) :=
    List.map_replicate
  set c := dbmToLin v with hc
  have hn1 : (1 : ℕ) ≤ n := by omega
  have hnq : (10 : ℚ) ≤ (n : ℚ) := by exact_mod_cast h10
  have hnq100 : (n : ℚ) < 100 := by exact_mod_cast h100
  have hval : obwValue (List.replicate n c) span_hz (n : ℤ) 99 =
      ((max 1 ((n - 1 : ℕ) : ℤ) : ℤ) : ℚ) * ((span_hz : ℚ) / ((max 1 ((n : ℤ) - 1) : ℤ) : ℚ)) := by
    apply obwValue_replicate n c hpos span_hz (n : ℤ) 99 (n - 1) hn1 le_rfl
    · intro j hj
      have hj1 : ((j : ℚ) + 1) ≤ (n : ℚ) - 1 := by
        have h := (Nat.cast_le (α := ℚ)).mpr (Nat.succ_le_of_lt hj)
        rw [Nat.cast_succ, Nat.cast_sub hn1, Nat.cast_one] at h
        exact h
      have hlt : (n : ℚ) - 1 < (n : ℚ) * (99 / 100) := by linarith
      calc ((j : ℚ) + 1) * c ≤ ((n : ℚ) - 1) * c :=
            mul_le_mul_of_nonneg_right hj1 (le_of_lt hpos)
        _ < ((n : ℚ) * (99 / 100)) * c := mul_lt_mul_of_pos_right hlt hpos
        _ = (n : ℚ) * c * (99 / 100) := by ring
    · exact Or.inr rfl
  have hcast : ((n - 1 : ℕ) : ℤ) = (n : ℤ) - 1 := by omega
  have hge : (1 : ℤ) ≤ (n : ℤ) - 1 := by omega
  have hmax : max 1 ((n : ℤ) - 1) = (n : ℤ) - 1 := max_eq_right hge
  have hne : (((n : ℤ) - 1 : ℤ) : ℚ) ≠ 0 := by
    have h0 : (0 : ℤ) < (n : ℤ) - 1 := by omega
    exact_mod_cast ne_of_gt h0
  have hspq : (0 : ℚ) < (span_hz : ℚ) := by exact_mod_cast hspan
  have hvspan : obwValue (List.replicate n c) span_hz (n : ℤ) 99 = (span_hz : ℚ) := by
    rw [hval, hcast, hmax, ← mul_div_assoc, mul_div_cancel_left₀ _ hne]
  rw [compute_obw_ok_iff, hmap]
  refine ⟨?_, ?_, ⟨?_, ?_⟩, ?_⟩
  · simp only [List.length_replicate, not_lt]
    omega
  · rw [List.sum_replicate]
    simp only [nsmul_eq_mul, not_le]
    exact mul_pos (by linarith) hpos
  · rw [hvspan]; exact hspq
  · rw [hvspan]; linarith
  · rw [hvspan]

theorem obwValue_as_mul (lin : List ℚ) (span_hz swe_points : ℤ) (pct : ℚ) :
    obwValue lin span_hz swe_points pct =
      ((max 1 (((obwWindow lin pct).2.1 : ℤ) - ((obwWindow lin pct).1 : ℤ)) : ℤ) : ℚ) *
        ((span_hz : ℚ) / ((max 1 (swe_points - 1) : ℤ) : ℚ)) := rfl

theorem one_le_width_cast (lin : List ℚ) (pct : ℚ) :
    (1 : ℚ) ≤ ((max 1 (((obwWindow lin pct).2.1 : ℤ) - ((obwWindow lin pct).1 : ℤ)) : ℤ) : ℚ) := by
  exact_mod_cast le_max_left 1 _

theorem den_pos_cast (swe_points : ℤ) :
    (0 : ℚ) < ((max 1 (swe_points - 1) : ℤ) : ℚ) := by
  have h : (1 : ℤ) ≤ max 1 (swe_points - 1) := le_max_left _ _
  exact_mod_cast lt_of_lt_of_le zero_lt_one h

/-- Claim C5: for a fixed trace, span and point count, if the OBW
computation succeeds at percentages p1 and p2 with p1 at most p2, the
bandwidth computed at p1 is at most the bandwidth computed at p2: the
greedy window trajectory does not depend on the target, so the smaller
target stops on a sub-window of the larger one. -/
theorem C5_obw_monotone_in_pct (dbmToLin : ℚ → ℚ) (vals : List ℚ)
    (span_hz swe_points : ℤ) (p1 p2 b1 b2 : ℚ) (hp : p1 ≤ p2)
    (h1 : compute_obw_from_trace dbmToLin vals span_hz swe_points p1 = .ok b1)
    (h2 : compute_obw_from_trace dbmToLin vals span_hz swe_points p2 = .ok b2) :
    b1 ≤ b2 := by
  rw [compute_obw_ok_iff] at h1 h2
  obtain ⟨-, hs, ⟨hb1pos, -⟩, hb1⟩ := h1
  obtain ⟨-, -, -, hb2⟩ := h2
  set lin := vals.map dbmToLin with hlin
  have hsum : 0 < lin.sum := lt_of_not_le hs
  have ht : lin.sum * (p1 / 100) ≤ lin.sum * (p2 / 100) :=
    mul_le_mul_of_nonneg_left (by linarith) (le_of_lt hsum)
  have habs := obwLoop_absorb lin lin.length (lin.sum * (p1 / 100)) (lin.sum * (p2 / 100)) ht
      (argmaxFirst lin) (argmaxFirst lin) (lin.getD (argmaxFirst lin) 0)
  have hgrow := obwLoop_grows lin lin.length (lin.sum * (p2 / 100))
      (obwWindow lin p1).1 (obwWindow lin p1).2.1 (obwWindow lin p1).2.2
  have hw2 : obwWindow lin p2 = obwLoop lin lin.length (lin.sum * (p2 / 100))
      (obwWindow lin p1).1 (obwWindow lin p1).2.1 (obwWindow lin p1).2.2 := habs
  have hle1 : (obwWindow lin p2).1 ≤ (obwWindow lin p1).1 := by rw [hw2]; exact hgrow.1
  have hle2 : (obwWindow lin p1).2.1 ≤ (obwWindow lin p2).2.1 := by rw [hw2]; exact hgrow.2
  have hxy : (((obwWindow lin p1).2.1 : ℤ) - ((obwWindow lin p1).1 : ℤ)) ≤
      (((obwWindow lin p2).2.1 : ℤ) - ((obwWindow lin p2).1 : ℤ)) := by omega
  have hwidth := max_le_max (le_refl (1 : ℤ)) hxy
  have hW1 := one_le_width_cast lin p1
  have hbin : 0 < (span_hz : ℚ) / ((max 1 (swe_points - 1) : ℤ) : ℚ) := by
    rw [obwValue_as_mul] at hb1pos
    nlinarith [hb1pos, hW1]
  rw [hb1, hb2, obwValue_as_mul, obwValue_as_mul]
  exact mul_le_mul_of_nonneg_right (by exact_mod_cast hwidth) (le_of_lt hbin)

/-- Claim C10: for every accepted trace (at least 10 points, positive
total linear power) with positive span, the computed OBW value is at least
one bin width span / max(1, points - 1) and hence strictly positive, so
the non-positive half of the sanity rejection is unreachable: an
out-of-range error can only mean the value exceeded span times 1.05. -/
theorem C10_obw_positive_lower_bound (dbmToLin : ℚ → ℚ) (vals : List ℚ) (span_hz swe_points : ℤ) (pct : ℚ)
    (h10 : 10 ≤ vals.length) (hsum : 0 < (vals.map dbmToLin).sum) (hspan : 0 < span_hz) :
    (span_hz : ℚ) / ((max 1 (swe_points - 1) : ℤ) : ℚ) ≤
        obwValue (vals.map dbmToLin) span_hz swe_points pct ∧
      0 < obwValue (vals.map dbmToLin) span_hz swe_points pct ∧
      (compute_obw_from_trace dbmToLin vals span_hz swe_points pct = .error .outOfRange →
        (span_hz : ℚ) * (21 / 20) < obwValue (vals.map dbmToLin) span_hz swe_points pct) := by
  have hspq : (0 : ℚ) < (span_hz : ℚ) := by exact_mod_cast hspan
  have hbin : 0 < (span_hz : ℚ) / ((max 1 (swe_points - 1) : ℤ) : ℚ) :=
    div_pos hspq (den_pos_cast swe_points)
  have hW := one_le_width_cast (vals.map dbmToLin) pct
  have hge : (span_hz : ℚ) / ((max 1 (swe_points - 1) : ℤ) : ℚ) ≤
      obwValue (vals.map dbmToLin) span_hz swe_points pct := by
    rw [obwValue_as_mul]
    nlinarith [hbin, hW]
  have hpos : 0 < obwValue (vals.map dbmToLin) span_hz swe_points pct :=
    lt_of_lt_of_le hbin hge
  refine ⟨hge, hpos, ?_⟩
  intro herr
  rw [compute_obw_outOfRange_iff] at herr
  obtain ⟨-, -, hnot⟩ := herr
  by_contra hle
  push_neg at hle
  exact hnot ⟨hpos, hle⟩

theorem compute_obw_eval_half :
    compute_obw_from_trace (fun _ => (1 : ℚ)) (List.replicate 10 0) 9 10 50 = .ok 4 := by
  have hmap : (List.replicate 10 (0 : ℚ)).map (fun _ => (1 : ℚ)) = List.replicate 10 1 :=
    List.map_replicate
  have hval : obwValue (List.replicate 10 (1 : ℚ)) 9 10 50 =
      ((max 1 ((4 : ℕ) : ℤ) : ℤ) : ℚ) * ((9 : ℚ) / ((max 1 ((10 : ℤ) - 1) : ℤ) : ℚ)) := by
    apply obwValue_replicate 10 1 one_pos 9 10 50 4 (by omega) (by omega)
    · intro j hj
      have hjq : (j : ℚ) < 4 := by exact_mod_cast hj
      norm_num
      linarith
    · left; norm_num
  rw [compute_obw_ok_iff, hmap]
  refine ⟨by norm_num, ?_, ⟨?_, ?_⟩, ?_⟩
  · rw [List.sum_replicate]; norm_num
  · rw [hval]; norm_num
  · rw [hval]; norm_num
  · rw [hval]; norm_num

theorem compute_obw_eval_onehundred :
    compute_obw_from_trace (fun _ => (1 : ℚ)) (List.replicate 100 0) 990 100 99 = .ok 980 := by
  have hmap : (List.replicate 100 (0 : ℚ)).map (fun _ => (1 : ℚ)) = List.replicate 100 1 :=
    List.map_replicate
  have hval : obwValue (List.replicate 100 (1 : ℚ)) 990 100 99 =
      ((max 1 ((98 : ℕ) : ℤ) : ℤ) : ℚ) * ((990 : ℚ) / ((max 1 ((100 : ℤ) - 1) : ℤ) : ℚ)) := by
    apply obwValue_replicate 100 1 one_pos 990 100 99 98 (by omega) (by omega)
    · intro j hj
      have hjq : (j : ℚ) < 98 := by exact_mod_cast hj
      norm_num
      linarith
    · left; norm_num
  rw [compute_obw_ok_iff, hmap]
  refine ⟨by norm_num, ?_, ⟨?_, ?_⟩, ?_⟩
  · rw [List.sum_replicate]; norm_num
  · rw [hval]; norm_num
  · rw [hval]; norm_num
  · rw [hval]; norm_num

theorem send_and_wait_loop_never_false (wait_for : String) (polls : List Poll) :
    send_and_wait_loop wait_for polls ≠ .ok false := by
  induction polls with
  | nil => simp [send_and_wait_loop]
  | cons p rest ih =>
    cases p with
    | reply r =>
      by_cases h : r ≠ "" ∧ pyStrip r = wait_for
      · simp [send_and_wait_loop, h]
      · simpa [send_and_wait_loop, h] using ih
    | raiseNotConnected m => simp [send_and_wait_loop]
    | raiseOther => simpa [send_and_wait_loop] using ih

theorem send_and_wait_loop_ok_iff (wait_for : String) (polls : List Poll)
    (hrep : ∀ p ∈ polls, ∃ r, p = Poll.reply r) :
    send_and_wait_loop wait_for polls = .ok true ↔
      ∃ r, Poll.reply r ∈ polls ∧ r ≠ "" ∧ pyStrip r = wait_for := by
  induction polls with
  | nil => simp [send_and_wait_loop]
  | cons p rest ih =>
    obtain ⟨r, rfl⟩ := hrep p (List.mem_cons_self p rest)
    have ih2 := ih (fun q hq => hrep q (List.mem_cons_of_mem _ hq))
    by_cases h : r ≠ "" ∧ pyStrip r = wait_for
    · simp only [send_and_wait_loop, if_pos h]
      constructor
      · intro _; exact ⟨r, List.mem_cons_self _ _, h⟩
      · intro _; trivial
    · simp only [send_and_wait_loop, if_neg h]
      rw [ih2]
      constructor
      · rintro ⟨r2, hmem, hm⟩
        exact ⟨r2, List.mem_cons_of_mem _ hmem, hm⟩
      · rintro ⟨r2, hmem, hm⟩
        rcases List.mem_cons.mp hmem with heq | hmem2
        · cases heq; exact absurd hm h
        · exact ⟨r2, hmem2, hm⟩

theorem send_and_wait_loop_timeout (wait_for : String) (polls : List Poll)
    (hrep : ∀ p ∈ polls, ∃ r, p = Poll.reply r ∧ ¬(r ≠ "" ∧ pyStrip r = wait_for)) :
    send_and_wait_loop wait_for polls = .error .timeoutError := by
  induction polls with
  | nil => simp [send_and_wait_loop]
  | cons p rest ih =>
    obtain ⟨r, rfl, hno⟩ := hrep p (List.mem_cons_self p rest)
    rw [send_and_wait_loop, if_neg hno]
    exact ih (fun q hq => hrep q (List.mem_cons_of_mem _ hq))

theorem send_and_wait_loop_notConnected (wait_for : String) (pre post : List Poll)
    (m : String)
    (hpre : ∀ p ∈ pre, (∀ r, p = Poll.reply r → ¬(r ≠ "" ∧ pyStrip r = wait_for)) ∧
      ∀ m2, p ≠ Poll.raiseNotConnected m2) :
    send_and_wait_loop wait_for (pre ++ Poll.raiseNotConnected m :: post) =
      .error (.instrumentNotConnected m) := by
  induction pre with
  | nil => simp [send_and_wait_loop]
  | cons p rest ih =>
    have hp := hpre p (List.mem_cons_self p rest)
    have ih2 := ih (fun q hq => hpre q (List.mem_cons_of_mem _ hq))
    cases p with
    | reply r =>
      rw [List.cons_append, send_and_wait_loop, if_neg (hp.1 r rfl)]
      exact ih2
    | raiseNotConnected m2 => exact absurd rfl (hp.2 m2)
    | raiseOther =>
      rw [List.cons_append, send_and_wait_loop]
      exact ih2

/-- Claim C2 (counterexample): after a socket write fault in send_command,
the session is NOT forced into the disconnected condition.  At the concrete
dead socket, send_command raises InstrumentNotConnected but leaves the
handle in place, so is_connected is still true, contradicting the claim
that it becomes false. -/
theorem C2_write_fault_counterexample :
    (send_command (some ⟨0, true⟩)).1 = .error (.instrumentNotConnected "Socket closed") ∧
      (send_command (some ⟨0, true⟩)).2 = some ⟨0, true⟩ ∧
      is_connected (send_command (some ⟨0, true⟩)).2 = true ∧
      ¬ is_connected (send_command (some ⟨0, true⟩)).2 = false := by
  refine ⟨rfl, rfl, rfl, ?_⟩
  decide

/-- Claim C2 (amended): a write fault makes send_command raise
InstrumentNotConnected with the message Socket closed, but the session
keeps its socket handle: is_connected remains true and the next operation
reuses the same stale handle, failing again at the OS level (message
Socket closed) rather than via the not-connected precondition check
(message Analyzer not connected). -/
theorem C2_write_fault_behavior (sk : Sock) (hdead : sk.dead = true) :
    send_command (some sk) = (.error (.instrumentNotConnected "Socket closed"), some sk) ∧
      is_connected (send_command (some sk)).2 = true ∧
      (send_command (send_command (some sk)).2).1 =
        .error (.instrumentNotConnected "Socket closed") := by
  simp [send_command, is_connected, hdead]

/-- Witness for C2: the amended theorem evaluated at a concrete dead
socket. -/
theorem C2_write_fault_witness :
    (⟨7, true⟩ : Sock).dead = true ∧
      send_command (some ⟨7, true⟩) =
        (.error (.instrumentNotConnected "Socket closed"), some ⟨7, true⟩) := by
  exact ⟨rfl, (C2_write_fault_behavior ⟨7, true⟩ rfl).1⟩

/-- Claim C3: for every connected session and every sequence of
operation-complete poll outcomes, send_and_wait never returns false; over
exception-free poll sequences it returns true exactly when some non-empty
reply strips to wait_for; if every poll is a non-matching reply it raises
Timeout when the deadline elapses (the poll list is finite, so it cannot
hang); and an InstrumentNotConnected raised by the polling query
propagates immediately, before any later outcome is examined. -/
theorem C3_send_and_wait_spec (sk : Sock) (hlive : sk.dead = false) (wait_for : String)
    (polls : List Poll) :
    (send_and_wait (some sk) wait_for polls ≠ .ok false) ∧
    ((∀ p ∈ polls, ∃ r, p = Poll.reply r) →
      (send_and_wait (some sk) wait_for polls = .ok true ↔
        ∃ r, Poll.reply r ∈ polls ∧ r ≠ "" ∧ pyStrip r = wait_for)) ∧
    ((∀ p ∈ polls, ∃ r, p = Poll.reply r ∧ ¬(r ≠ "" ∧ pyStrip r = wait_for)) →
      send_and_wait (some sk) wait_for polls = .error .timeoutError) ∧
    (∀ pre post m, polls = pre ++ Poll.raiseNotConnected m :: post →
      (∀ p ∈ pre, (∀ r, p = Poll.reply r → ¬(r ≠ "" ∧ pyStrip r = wait_for)) ∧
        ∀ m2, p ≠ Poll.raiseNotConnected m2) →
      send_and_wait (some sk) wait_for polls = .error (.instrumentNotConnected m)) := by
  have hsw : send_and_wait (some sk) wait_for polls = send_and_wait_loop wait_for polls := by
    simp [send_and_wait, send_command, hlive]
  refine ⟨?_, ?_, ?_, ?_⟩
  · rw [hsw]; exact send_and_wait_loop_never_false wait_for polls
  · intro h; rw [hsw]; exact send_and_wait_loop_ok_iff wait_for polls h
  · intro h; rw [hsw]; exact send_and_wait_loop_timeout wait_for polls h
  · intro pre post m hsplit hpre
    rw [hsw, hsplit]
    exact send_and_wait_loop_notConnected wait_for pre post m hpre

/-- Witness for C3: a live session polled with a non-matching reply and
then a reply that strips to the expected text returns true. -/
theorem C3_send_and_wait_witness :
    ((⟨0, false⟩ : Sock).dead = false ∧
      (∀ p ∈ [Poll.reply "0", Poll.reply " 1 "], ∃ r, p = Poll.reply r)) ∧
      send_and_wait (some ⟨0, false⟩) "1" [Poll.reply "0", Poll.reply " 1 "] = .ok true := by
  refine ⟨⟨rfl, ?_⟩, ?_⟩
  · intro p hp
    rcases List.mem_cons.mp hp with rfl | hp2
    · exact ⟨"0", rfl⟩
    · rcases List.mem_cons.mp hp2 with rfl | hp3
      · exact ⟨" 1 ", rfl⟩
      · simp at hp3
  · apply ((C3_send_and_wait_spec ⟨0, false⟩ rfl "1" [Poll.reply "0", Poll.reply " 1 "]).2.1 ?_).mpr
    · exact ⟨" 1 ", by simp, by decide, by decide⟩
    · intro p hp
      rcases List.mem_cons.mp hp with rfl | hp2
      · exact ⟨"0", rfl⟩
      · rcases List.mem_cons.mp hp2 with rfl | hp3
        · exact ⟨" 1 ", rfl⟩
        · simp at hp3

/-- Claim C8: the pass verdict is None exactly when no bound was
supplied; when it is a boolean, it is true exactly when the measured value
meets every supplied bound; and measured 13.8 with min 12.0 and max 15.0
passes. -/
theorem C8_pass_verdict (measured : ℚ) (lo hi : Option ℚ) :
    (tx_power_passed measured lo hi = none ↔ lo = none ∧ hi = none) ∧
    (∀ b : Bool, tx_power_passed measured lo hi = some b →
      (b = true ↔ (∀ l ∈ lo, l ≤ measured) ∧ ∀ u ∈ hi, measured ≤ u)) ∧
    tx_power_passed (138 / 10) (some 12) (some 15) = some true := by
  refine ⟨?_, ?_, ?_⟩
  · cases lo <;> cases hi <;> simp [tx_power_passed]
  · intro b hb
    cases lo <;> cases hi <;> simp [tx_power_passed] at hb <;> simp [← hb]
  · have h1 : (12 : ℚ) ≤ 138 / 10 := by norm_num
    have h2 : (138 : ℚ) / 10 ≤ 15 := by norm_num
    simp [tx_power_passed, h1, h2]

/-- Witness for C8: the 13.8 dBm / [12, 15] instance of the claim. -/
theorem C8_pass_verdict_witness :
    tx_power_passed (138 / 10) (some 12) (some 15) = some true ∧
      (true = true ↔ (∀ l ∈ some (12 : ℚ), l ≤ 138 / 10) ∧
        ∀ u ∈ some (15 : ℚ), (138 : ℚ) / 10 ≤ u) :=
  ⟨(C8_pass_verdict (138 / 10) (some 12) (some 15)).2.2,
   (C8_pass_verdict (138 / 10) (some 12) (some 15)).2.1 true
     (C8_pass_verdict (138 / 10) (some 12) (some 15)).2.2⟩

/-- Claim C9 (counterexample): with no valid configured zoom list, the BLE
frequency-accuracy loader does NOT fall back to the three passes the claim
names: its first pass uses RBW 300 kHz (not 30 kHz) and its second pass
uses VBW 300 kHz (not 30 kHz). -/
theorem C9_fallback_zooms_counterexample :
    validateZooms (1 / 5) none = [] ∧
      (load_ble_zooms_from_yaml (1 / 5) none).map (fun z => (z.span_hz, z.rbw_hz, z.vbw_hz)) =
        [(2000000, 300000, 100000), (200000, 10000, 300000), (20000, 1000, 3000)] ∧
      (load_ble_zooms_from_yaml (1 / 5) none).map (fun z => (z.span_hz, z.rbw_hz, z.vbw_hz)) ≠
        [(2000000, 30000, 100000), (200000, 10000, 30000), (20000, 1000, 3000)] := by
  refine ⟨rfl, ?_, ?_⟩
  · simp [load_ble_zooms_from_yaml, validateZooms]
  · simp [load_ble_zooms_from_yaml, validateZooms]

/-- Claim C9 (amended): when the configuration supplies no valid zoom-pass
list, the LoRa and LTE loaders fall back to exactly
2 MHz / 30 kHz / 100 kHz, then 200 kHz / 10 kHz / 30 kHz, then
20 kHz / 1 kHz / 3 kHz (each with a 0.20 s delay), in that order; the BLE
loader falls back to 2 MHz / 300 kHz / 100 kHz, then
200 kHz / 10 kHz / 300 kHz, then 20 kHz / 1 kHz / 3 kHz, with the default
delay. -/
theorem C9_fallback_zooms (delay_default : ℚ) (raw : Option (List RawZoom))
    (hinvalid : validateZooms delay_default raw = []) :
    load_zooms_from_yaml delay_default raw =
        [⟨2000000, 30000, 100000, 1 / 5⟩, ⟨200000, 10000, 30000, 1 / 5⟩,
         ⟨20000, 1000, 3000, 1 / 5⟩] ∧
      load_lte_zooms delay_default raw =
        [⟨2000000, 30000, 100000, 1 / 5⟩, ⟨200000, 10000, 30000, 1 / 5⟩,
         ⟨20000, 1000, 3000, 1 / 5⟩] ∧
      load_ble_zooms_from_yaml delay_default raw =
        [⟨2000000, 300000, 100000, delay_default⟩, ⟨200000, 10000, 300000, delay_default⟩,
         ⟨20000, 1000, 3000, delay_default⟩] := by
  unfold load_zooms_from_yaml load_lte_zooms load_ble_zooms_from_yaml
  rw [hinvalid]
  simp [lora_FALLBACK_ZOOMS, lte_FALLBACK_ZOOMS]

/-- Witness for C9: the LoRa loader applied to an absent zoom list. -/
theorem C9_fallback_zooms_witness :
    validateZooms (1 / 5) none = [] ∧
      load_zooms_from_yaml (1 / 5) none =
        [⟨2000000, 30000, 100000, 1 / 5⟩, ⟨200000, 10000, 30000, 1 / 5⟩,
         ⟨20000, 1000, 3000, 1 / 5⟩] :=
  ⟨rfl, (C9_fallback_zooms (1 / 5) none rfl).1⟩

theorem noDone_emit (e : EvTag) (h : e ≠ EvTag.done) : NoDone (emit e) := by
  intro s
  simp [emit, h, Ne.symm h]

theorem noDone_skip : NoDone skip := by intro s; simp [skip]

theorem noDone_raiseExc : NoDone raiseExc := by intro s; simp [raiseExc]

theorem noDone_pret : NoDone pret := by intro s; simp [pret]

theorem noDone_call : NoDone call := by
  intro s
  unfold call
  cases henv : s.env <;> simp

theorem noDone_ccall : NoDone ccall := by
  intro s
  unfold ccall
  cases henv : s.cleanupEnv <;> simp

theorem noDone_setModemOn : NoDone setModemOn := by intro s; simp [setModemOn]

theorem noDone_setCwOn : NoDone setCwOn := by intro s; simp [setCwOn]

theorem noDone_setCleanupDone : NoDone setCleanupDone := by
  intro s; simp [setCleanupDone]

theorem noDone_exceptToProg {α β : Type} (x : Except α β) : NoDone (exceptToProg x) := by
  intro s; simp [exceptToProg]

theorem noDone_seq (p q : Prog) (hp : NoDone p) (hq : NoDone q) : NoDone (seq p q) := by
  intro s
  unfold seq
  by_cases h : (p s).2.1 = Ctl.ok
  · simp only [h, if_true, List.mem_append]
    intro hmem
    rcases hmem with hmem | hmem
    · exact hp s hmem
    · exact hq _ hmem
  · simp only [h, if_false]
    exact hp s

theorem noDone_branch (t e : Prog) (ht : NoDone t) (he : NoDone e) :
    NoDone (branch t e) := by
  intro s
  unfold branch
  cases hc : s.conds with
  | nil => exact ht s
  | cons b rest =>
    by_cases hb : b = true
    · simp only [hb, if_true]; exact ht _
    · simp only [Bool.not_eq_true] at hb
      simp only [hb, Bool.false_eq_true, if_false]
      exact he _

theorem noDone_attempt (p : Prog) (hp : NoDone p) : NoDone (attempt p) := by
  intro s
  unfold attempt
  by_cases h : (p s).2.1 = Ctl.exc
  · simp only [h, if_true]; exact hp s
  · simp only [h, if_false]; exact hp s

theorem noDone_orElseE (p q : Prog) (hp : NoDone p) (hq : NoDone q) :
    NoDone (orElseE p q) := by
  intro s
  unfold orElseE
  by_cases h : (p s).2.1 = Ctl.exc
  · simp only [h, if_true, List.mem_append]
    intro hmem
    rcases hmem with hmem | hmem
    · exact hp s hmem
    · exact hq _ hmem
  · simp only [h, if_false]
    exact hp s

theorem noDone_pyFinally (p q : Prog) (hp : NoDone p) (hq : NoDone q) :
    NoDone (pyFinally p q) := by
  intro s
  unfold pyFinally
  simp only [List.mem_append]
  intro hmem
  rcases hmem with hmem | hmem
  · exact hp s hmem
  · exact hq _ hmem

theorem noDone_pyCatchCancel (p q : Prog) (hp : NoDone p) (hq : NoDone q) :
    NoDone (pyCatchCancel p q) := by
  intro s
  unfold pyCatchCancel
  by_cases h : (p s).2.1 = Ctl.cancel
  · simp only [h, if_true, List.mem_append]
    intro hmem
    rcases hmem with hmem | hmem
    · exact hp s hmem
    · exact hq _ hmem
  · simp only [h, if_false]
    exact hp s

theorem noDone_ifModemOn (t : Prog) (ht : NoDone t) : NoDone (ifModemOn t) := by
  intro s
  unfold ifModemOn
  by_cases h : s.modemOn = true
  · simp only [h, if_true]; exact ht s
  · simp only [Bool.not_eq_true] at h
    simp only [h, Bool.false_eq_true, if_false]
    exact noDone_skip s

theorem noDone_ifCwOn (t : Prog) (ht : NoDone t) : NoDone (ifCwOn t) := by
  intro s
  unfold ifCwOn
  by_cases h : s.cwOn = true
  · simp only [h, if_true]; exact ht s
  · simp only [Bool.not_eq_true] at h
    simp only [h, Bool.false_eq_true, if_false]
    exact noDone_skip s

theorem noDone_ifModemNotCleaned (t : Prog) (ht : NoDone t) :
    NoDone (ifModemNotCleaned t) := by
  intro s
  unfold ifModemNotCleaned
  by_cases h : s.modemOn = true ∧ ¬ s.cleanupDone = true
  · simp only [if_pos h]; exact ht s
  · simp only [if_neg h]; exact noDone_skip s

theorem noDone_loops (p : Prog) (hp : NoDone p) : ∀ k, NoDone (loops p k) := by
  intro k
  induction k with
  | zero => exact noDone_skip
  | succ m ih => exact noDone_seq p (loops p m) hp ih

theorem noDone_apply_analyzer_setup : NoDone apply_analyzer_setup := by
  unfold apply_analyzer_setup
  repeat
    first
    | exact noDone_call
    | exact noDone_skip
    | apply noDone_seq
    | apply noDone_branch
    | apply noDone_attempt

theorem noDone_zoom_and_center : NoDone zoom_and_center := by
  unfold zoom_and_center
  repeat
    first
    | exact noDone_call
    | apply noDone_seq
    | apply noDone_attempt

theorem noDone_retryConnect3 : NoDone retryConnect3 := by
  unfold retryConnect3
  repeat
    first
    | exact noDone_call
    | apply noDone_seq
    | apply noDone_orElseE

theorem noDone_managed_ble (body : Prog) (hb : NoDone body) :
    NoDone (managed_ble body) := by
  unfold managed_ble
  apply noDone_seq
  · exact noDone_retryConnect3
  · apply noDone_pyFinally
    · exact hb
    · exact noDone_attempt _ noDone_call

theorem noDone_loraTxMain : NoDone loraTxMain := by
  unfold loraTxMain
  repeat
    first
    | exact noDone_call
    | exact noDone_apply_analyzer_setup
    | apply noDone_managed_ble
    | apply noDone_seq
    | apply noDone_pyFinally
    | (apply noDone_emit; decide)

theorem noDone_loraFaMain (k : Nat) : NoDone (loraFaMain k) := by
  unfold loraFaMain
  repeat
    first
    | exact noDone_call
    | exact noDone_apply_analyzer_setup
    | exact noDone_zoom_and_center
    | apply noDone_managed_ble
    | apply noDone_loops
    | apply noDone_seq
    | apply noDone_pyFinally
    | (apply noDone_emit; decide)

theorem noDone_obwMeasureBlock (kAcc : Nat) : NoDone (obwMeasureBlock kAcc) := by
  unfold obwMeasureBlock
  repeat
    first
    | exact noDone_call
    | exact noDone_skip
    | exact noDone_raiseExc
    | apply noDone_loops
    | apply noDone_seq
    | apply noDone_branch
    | apply noDone_attempt
    | (apply noDone_emit; decide)

theorem noDone_loraObwMain (kAcc : Nat) : NoDone (loraObwMain kAcc) := by
  unfold loraObwMain
  repeat
    first
    | exact noDone_call
    | exact noDone_pret
    | exact noDone_apply_analyzer_setup
    | exact noDone_obwMeasureBlock kAcc
    | apply noDone_managed_ble
    | apply noDone_seq
    | apply noDone_orElseE
    | apply noDone_pyFinally
    | (apply noDone_emit; decide)

theorem noDone_retry2 : NoDone retry2 := by
  unfold retry2
  repeat
    first
    | exact noDone_call
    | apply noDone_seq
    | apply noDone_orElseE

theorem noDone_lteTxDutBody : NoDone lteTxDutBody := by
  unfold lteTxDutBody
  repeat
    first
    | exact noDone_call
    | exact noDone_retry2
    | exact noDone_setModemOn
    | exact noDone_setCwOn
    | exact noDone_setCleanupDone
    | apply noDone_ifModemOn
    | apply noDone_seq
    | apply noDone_attempt
    | (apply noDone_emit; decide)

theorem noDone_lteExcTeardown : NoDone lteExcTeardown := by
  unfold lteExcTeardown
  repeat
    first
    | exact noDone_call
    | apply noDone_ifModemNotCleaned
    | apply noDone_ifCwOn
    | apply noDone_seq
    | apply noDone_attempt
    | (apply noDone_emit; decide)

theorem noDone_lteFaDutBody (k : Nat) : NoDone (lteFaDutBody k) := by
  unfold lteFaDutBody
  repeat
    first
    | exact noDone_call
    | exact noDone_retry2
    | exact noDone_zoom_and_center
    | exact noDone_setModemOn
    | exact noDone_setCwOn
    | exact noDone_setCleanupDone
    | apply noDone_ifModemOn
    | apply noDone_loops
    | apply noDone_seq
    | apply noDone_attempt
    | (apply noDone_emit; decide)

theorem noDone_bleReadPower : NoDone bleReadPower := by
  unfold bleReadPower
  repeat
    first
    | exact noDone_call
    | apply noDone_seq
    | apply noDone_orElseE
    | apply noDone_attempt
    | (apply noDone_emit; decide)

theorem noDone_bleReconnectAttempt : NoDone bleReconnectAttempt := by
  unfold bleReconnectAttempt
  repeat
    first
    | exact noDone_call
    | exact noDone_skip
    | apply noDone_seq
    | apply noDone_attempt
    | apply noDone_branch
    | (apply noDone_emit; decide)

theorem noDone_bleReconnectFail : NoDone bleReconnectFail := by
  unfold bleReconnectFail
  repeat
    first
    | exact noDone_call
    | apply noDone_seq
    | (apply noDone_emit; decide)

theorem noDone_bleReconnect : NoDone bleReconnect := by
  unfold bleReconnect
  repeat
    first
    | exact noDone_bleReconnectAttempt
    | exact noDone_bleReconnectFail
    | exact noDone_raiseExc
    | apply noDone_seq
    | apply noDone_orElseE

theorem noDone_bleSetPowerPath : NoDone bleSetPowerPath := by
  unfold bleSetPowerPath
  repeat
    first
    | exact noDone_call
    | exact noDone_bleReconnect
    | apply noDone_seq
    | apply noDone_orElseE
    | apply noDone_attempt
    | (apply noDone_emit; decide)

theorem noDone_bleSkipPowerPath : NoDone bleSkipPowerPath := by
  unfold bleSkipPowerPath
  repeat
    first
    | apply noDone_seq
    | (apply noDone_emit; decide)

set_option maxHeartbeats 2000000 in
theorem noDone_bleTxMain : NoDone bleTxMain := by
  unfold bleTxMain
  repeat
    first
    | exact noDone_call
    | exact noDone_apply_analyzer_setup
    | exact noDone_bleReadPower
    | exact noDone_bleSetPowerPath
    | exact noDone_bleSkipPowerPath
    | apply noDone_seq
    | apply noDone_orElseE
    | apply noDone_attempt
    | apply noDone_branch
    | (apply noDone_emit; decide)

theorem noDone_bleFaMain (k : Nat) : NoDone (bleFaMain k) := by
  unfold bleFaMain bleFaZoomPass
  repeat
    first
    | exact noDone_call
    | exact noDone_skip
    | exact noDone_apply_analyzer_setup
    | apply noDone_loops
    | apply noDone_seq
    | apply noDone_attempt
    | apply noDone_branch
    | (apply noDone_emit; decide)

theorem doneOnceLast_append (es1 es2 : List EvTag) (h1 : EvTag.done ∉ es1)
    (h2 : DoneOnceLast es2) : DoneOnceLast (es1 ++ es2) := by
  obtain ⟨hc, hl⟩ := h2
  constructor
  · rw [List.count_append, List.count_eq_zero.mpr h1, hc]
  · have hne : es2 ≠ [] := by
      rintro rfl
      simp at hl
    rw [List.getLast?_append_of_ne_nil _ hne]
    exact hl

theorem pyFinally_doneOnceLast (body fin : Prog) (hb : NoDone body)
    (hf : ∀ s, DoneOnceLast ((fin s).1)) (s : PSt) :
    DoneOnceLast ((pyFinally body fin s).1) := by
  unfold pyFinally
  exact doneOnceLast_append _ _ (hb s) (hf _)

theorem seq_noDone_ok_doneOnceLast (p q : Prog) (hok : ∀ s, (p s).2.1 = Ctl.ok)
    (hnd : NoDone p) (hq : ∀ s, DoneOnceLast ((q s).1)) (s : PSt) :
    DoneOnceLast ((seq p q s).1) := by
  unfold seq
  rw [if_pos (hok s)]
  exact doneOnceLast_append _ _ (hnd s) (hq _)

theorem doneOnceLast_emit_done (s : PSt) : DoneOnceLast ((emit EvTag.done s).1) := by
  unfold emit
  constructor <;> rfl

theorem attempt_ccall_ok (s : PSt) : ((attempt ccall) s).2.1 = Ctl.ok := by
  unfold attempt ccall
  cases h : s.cleanupEnv with
  | nil => simp [h]
  | cons b rest => cases b <;> simp [h]

theorem emit_ok (e : EvTag) (s : PSt) : ((emit e) s).2.1 = Ctl.ok := rfl

theorem seq_ok_of (p q : Prog) (hp : ∀ s, (p s).2.1 = Ctl.ok)
    (hq : ∀ s, (q s).2.1 = Ctl.ok) (s : PSt) : ((seq p q) s).2.1 = Ctl.ok := by
  unfold seq
  rw [if_pos (hp s)]
  exact hq _

theorem doneOnceLast_close_done (s : PSt) :
    DoneOnceLast ((seq (emit (EvTag.step "close" "done")) (emit EvTag.done) s).1) :=
  seq_noDone_ok_doneOnceLast _ _ (emit_ok _) (noDone_emit _ (by decide))
    doneOnceLast_emit_done s

theorem doneOnceLast_obw_fin (s : PSt) :
    DoneOnceLast (((seq (attempt ccall) <| seq (attempt ccall) <| seq (attempt ccall) <|
      emit EvTag.done) s).1) := by
  apply seq_noDone_ok_doneOnceLast _ _ attempt_ccall_ok
    (noDone_attempt _ noDone_ccall)
  intro s2
  apply seq_noDone_ok_doneOnceLast _ _ attempt_ccall_ok
    (noDone_attempt _ noDone_ccall)
  intro s3
  apply seq_noDone_ok_doneOnceLast _ _ attempt_ccall_ok
    (noDone_attempt _ noDone_ccall)
  exact doneOnceLast_emit_done

theorem doneOnceLast_bleTx_fin (s : PSt) :
    DoneOnceLast (((seq (attempt ccall) <| seq (attempt ccall) <|
      seq (emit (EvTag.step "close" "done")) <| emit EvTag.done) s).1) := by
  apply seq_noDone_ok_doneOnceLast _ _ attempt_ccall_ok
    (noDone_attempt _ noDone_ccall)
  intro s2
  apply seq_noDone_ok_doneOnceLast _ _ attempt_ccall_ok
    (noDone_attempt _ noDone_ccall)
  intro s3
  exact doneOnceLast_close_done s3

theorem bleFa_fin_branch_ok (s : PSt) :
    ((branch (attempt (seq ccall (emit EvTag.log))) skip) s).2.1 = Ctl.ok := by
  unfold branch
  have hin : ∀ s2 : PSt, ((attempt (seq ccall (emit EvTag.log))) s2).2.1 = Ctl.ok := by
    intro s2
    unfold attempt seq ccall emit
    cases h : s2.cleanupEnv with
    | nil => simp [h]
    | cons b rest => cases b <;> simp [h]
  cases hc : s.conds with
  | nil => exact hin s
  | cons b rest =>
    cases b
    · simp only [Bool.false_eq_true, if_false]
      rfl
    · simp only [if_true]
      exact hin _

theorem doneOnceLast_bleFa_fin (s : PSt) :
    DoneOnceLast (((seq (branch (attempt (seq ccall (emit EvTag.log))) skip) <|
      seq (emit (EvTag.step "close" "done")) <| emit EvTag.done) s).1) := by
  apply seq_noDone_ok_doneOnceLast _ _ bleFa_fin_branch_ok
  · apply noDone_branch
    · apply noDone_attempt
      apply noDone_seq
      · exact noDone_ccall
      · exact noDone_emit _ (by decide)
    · exact noDone_skip
  · exact doneOnceLast_close_done

theorem doneOnceLast_run_tx_power (s : PSt) :
    DoneOnceLast ((run_tx_power_stream s).1) := by
  unfold run_tx_power_stream
  apply pyFinally_doneOnceLast
  · apply noDone_pyCatchCancel
    · apply noDone_orElseE
      · exact noDone_loraTxMain
      · exact noDone_emit _ (by decide)
    · exact noDone_skip
  · exact doneOnceLast_emit_done

theorem doneOnceLast_run_freq_accuracy (k : Nat) (s : PSt) :
    DoneOnceLast ((run_freq_accuracy_stream k s).1) := by
  unfold run_freq_accuracy_stream
  apply pyFinally_doneOnceLast
  · apply noDone_pyCatchCancel
    · apply noDone_orElseE
      · exact noDone_loraFaMain k
      · exact noDone_emit _ (by decide)
    · exact noDone_skip
  · exact doneOnceLast_emit_done

theorem doneOnceLast_run_obw (kAcc : Nat) (s : PSt) :
    DoneOnceLast ((run_obw_stream kAcc s).1) := by
  unfold run_obw_stream
  apply pyFinally_doneOnceLast
  · apply noDone_pyCatchCancel
    · apply noDone_orElseE
      · exact noDone_loraObwMain kAcc
      · exact noDone_emit _ (by decide)
    · apply noDone_seq <;> exact noDone_attempt _ noDone_ccall
  · exact doneOnceLast_obw_fin

theorem noDone_lteCommon (inner : Prog) (hinner : NoDone inner)
    (earfcn : ℤ) (lte_map : List (ℤ × ℤ)) :
    NoDone (seq (exceptToProg (resolve_earfcn_or_freq earfcn lte_map)) <|
      seq (emit EvTag.start) <|
      seq (emit (EvTag.step "connectAnalyzer" "start")) <| seq call <|
      seq (emit (EvTag.step "connectAnalyzer" "done")) <|
      seq (emit (EvTag.step "configureAnalyzer" "start")) <| seq apply_analyzer_setup <|
      seq (emit (EvTag.step "configureAnalyzer" "done")) <| seq call <|
      seq (emit (EvTag.step "connectDut" "start")) <|
      orElseE (managed_ble inner) lteExcTeardown) := by
  repeat
    first
    | exact noDone_call
    | exact noDone_exceptToProg _
    | exact noDone_apply_analyzer_setup
    | exact noDone_lteExcTeardown
    | exact hinner
    | apply noDone_managed_ble
    | apply noDone_seq
    | apply noDone_orElseE
    | (apply noDone_emit; decide)

theorem doneOnceLast_run_lte_tx_power (earfcn : ℤ) (lte_map : List (ℤ × ℤ)) (s : PSt) :
    DoneOnceLast ((run_lte_tx_power_stream earfcn lte_map s).1) := by
  unfold run_lte_tx_power_stream
  apply pyFinally_doneOnceLast
  · apply noDone_pyCatchCancel
    · exact noDone_lteCommon lteTxDutBody noDone_lteTxDutBody earfcn lte_map
    · exact noDone_skip
  · exact doneOnceLast_emit_done

theorem doneOnceLast_run_lte_freq_accuracy (earfcn : ℤ) (lte_map : List (ℤ × ℤ))
    (k : Nat) (s : PSt) :
    DoneOnceLast ((run_lte_frequency_accuracy_stream earfcn lte_map k s).1) := by
  unfold run_lte_frequency_accuracy_stream
  apply pyFinally_doneOnceLast
  · apply noDone_pyCatchCancel
    · exact noDone_lteCommon (lteFaDutBody k) (noDone_lteFaDutBody k) earfcn lte_map
    · exact noDone_skip
  · exact doneOnceLast_emit_done

theorem doneOnceLast_run_ble_tx_power (power channel : ℤ) (f p : ℤ) (s : PSt)
    (hch : resolve_ble_channel_to_freq_hz channel = .ok f)
    (hpw : parse_tx_power power = .ok p) :
    DoneOnceLast ((run_ble_tx_power_stream power channel s).1) := by
  unfold run_ble_tx_power_stream
  rw [hch, hpw]
  apply seq_noDone_ok_doneOnceLast _ _ (emit_ok EvTag.start) (noDone_emit _ (by decide))
  intro s2
  apply pyFinally_doneOnceLast
  · apply noDone_pyCatchCancel
    · apply noDone_orElseE
      · exact noDone_bleTxMain
      · exact noDone_emit _ (by decide)
    · exact noDone_skip
  · exact doneOnceLast_bleTx_fin

theorem ble_tx_power_invalid_channel (power channel : ℤ) (e : String) (s : PSt)
    (hch : resolve_ble_channel_to_freq_hz channel = .error e) :
    (run_ble_tx_power_stream power channel s).1 = [] := by
  unfold run_ble_tx_power_stream
  rw [hch]

theorem ble_tx_power_invalid_power (power channel : ℤ) (f : ℤ) (e : String) (s : PSt)
    (hch : resolve_ble_channel_to_freq_hz channel = .ok f)
    (hpw : parse_tx_power power = .error e) :
    (run_ble_tx_power_stream power channel s).1 = [] := by
  unfold run_ble_tx_power_stream
  rw [hch, hpw]

theorem doneOnceLast_run_ble_freq_accuracy (channel : ℤ) (f : ℤ) (k : Nat) (s : PSt)
    (hch : resolve_ble_channel_to_freq_hz channel = .ok f) :
    DoneOnceLast ((run_ble_frequency_accuracy_stream channel k s).1) := by
  unfold run_ble_frequency_accuracy_stream
  rw [hch]
  apply seq_noDone_ok_doneOnceLast _ _ (emit_ok EvTag.start) (noDone_emit _ (by decide))
  intro s2
  apply pyFinally_doneOnceLast
  · apply noDone_pyCatchCancel
    · apply noDone_orElseE
      · exact noDone_bleFaMain k
      · exact noDone_emit _ (by decide)
    · exact noDone_skip
  · exact doneOnceLast_bleFa_fin

theorem ble_freq_accuracy_invalid_channel (channel : ℤ) (e : String) (k : Nat) (s : PSt)
    (hch : resolve_ble_channel_to_freq_hz channel = .error e) :
    (run_ble_frequency_accuracy_stream channel k s).1 = [] := by
  unfold run_ble_frequency_accuracy_stream
  rw [hch]

/-- Claim C4 (counterexample): an equal-power trace of 100 points with
pct = 99 does not return the span: the greedy window stops after
99 samples (window width 98 bins), so with span 990 Hz and 100 sweep
points the computation returns 980 Hz, not 990 Hz. -/
theorem C4_equal_power_counterexample :
    compute_obw_from_trace (fun _ => (1 : ℚ)) (List.replicate 100 0) 990 100 99 = .ok 980 ∧
      (Except.ok (980 : ℚ) : Except ObwError ℚ) ≠ .ok ((990 : ℤ) : ℚ) := by
  refine ⟨compute_obw_eval_onehundred, ?_⟩
  simp only [ne_eq, Except.ok.injEq]
  norm_num

/-- Claim C4 (amended): for an equal-power trace with at least 10 and at
most 99 points, a positive span, sweep points equal to the trace length
and pct = 99, the OBW computation returns exactly the span.  (With 100 or
more points the target 0.99 times the total is reached before the window
covers the whole trace, so the result is strictly below the span; see the
counterexample.) -/
theorem C4_equal_power_full_span (dbmToLin : ℚ → ℚ) (v : ℚ) (n : ℕ) (span_hz : ℤ)
    (hpos : 0 < dbmToLin v) (h10 : 10 ≤ n) (h99 : n ≤ 99) (hspan : 0 < span_hz) :
    compute_obw_from_trace dbmToLin (List.replicate n v) span_hz (n : ℤ) 99 =
      .ok (span_hz : ℚ) :=
  compute_obw_replicate dbmToLin v n span_hz hpos h10 (by omega) hspan

/-- Witness for C4: the amended theorem at a 10-point equal-power trace
with span 9 Hz. -/
theorem C4_equal_power_witness :
    (0 : ℚ) < (fun _ => (1 : ℚ)) 0 ∧
      compute_obw_from_trace (fun _ => (1 : ℚ)) (List.replicate 10 0) 9 10 99 = .ok 9 :=
  ⟨by norm_num,
   by simpa using
     C4_equal_power_full_span (fun _ => 1) 0 10 9 (by norm_num) (by norm_num)
       (by norm_num) (by norm_num)⟩

/-- Claim C6: every bandwidth returned by the OBW computation lies in the
interval (0, span times 21/20] and equals the raw computed value (no
clamping or adjustment); and whenever the raw value falls outside that
interval on an otherwise accepted trace, the computation raises the
out-of-range error instead of returning. -/
theorem C6_obw_sanity_bound (dbmToLin : ℚ → ℚ) (vals : List ℚ)
    (span_hz swe_points : ℤ) (pct b : ℚ) :
    (compute_obw_from_trace dbmToLin vals span_hz swe_points pct = .ok b →
      (0 < b ∧ b ≤ (span_hz : ℚ) * (21 / 20)) ∧
        b = obwValue (vals.map dbmToLin) span_hz swe_points pct) ∧
    (¬ vals.length < 10 → ¬ (vals.map dbmToLin).sum ≤ 0 →
      ¬ (0 < obwValue (vals.map dbmToLin) span_hz swe_points pct ∧
          obwValue (vals.map dbmToLin) span_hz swe_points pct ≤ (span_hz : ℚ) * (21 / 20)) →
      compute_obw_from_trace dbmToLin vals span_hz swe_points pct = .error .outOfRange) := by
  constructor
  · intro hok
    rw [compute_obw_ok_iff] at hok
    obtain ⟨-, -, ⟨hp, hle⟩, hb⟩ := hok
    exact ⟨⟨hb ▸ hp, hb ▸ hle⟩, hb⟩
  · intro hlen hsum hnot
    rw [compute_obw_outOfRange_iff]
    exact ⟨hlen, hsum, hnot⟩

/-- Witness for C6: the successful 10-point evaluation at pct = 50 lies in
the sanity interval and is the raw value. -/
theorem C6_obw_sanity_witness :
    ((0 : ℚ) < 4 ∧ (4 : ℚ) ≤ ((9 : ℤ) : ℚ) * (21 / 20)) ∧
      (4 : ℚ) = obwValue ((List.replicate 10 (0 : ℚ)).map (fun _ => (1 : ℚ))) 9 10 50 :=
  (C6_obw_sanity_bound (fun _ => 1) (List.replicate 10 0) 9 10 50 4).1
    compute_obw_eval_half

/-- Claim C7: on every input (dBm samples, span, sweep points, percentage),
the orchestrator's compute_obw_from_trace and the trace-analysis portion
of the driver's measure_obw_via_max_hold compute the same result, raising
under the same conditions (short trace, non-positive total power,
out-of-range value) and returning the same bandwidth otherwise. -/
theorem C7_obw_implementations_equal (dbmToLin : ℚ → ℚ) (vals : List ℚ)
    (span_hz swe_points : ℤ) (pct : ℚ) :
    measure_obw_trace_analysis dbmToLin vals span_hz swe_points pct =
      compute_obw_from_trace dbmToLin vals span_hz swe_points pct :=
  obw_implementations_agree dbmToLin vals span_hz swe_points pct

/-- Witness for C10: the lower-bound property at a concrete accepted
trace. -/
theorem C10_obw_positivity_witness :
    (10 ≤ (List.replicate 10 (0 : ℚ)).length ∧
      0 < ((List.replicate 10 (0 : ℚ)).map (fun _ => (1 : ℚ))).sum ∧ (0 : ℤ) < 9) ∧
      0 < obwValue ((List.replicate 10 (0 : ℚ)).map (fun _ => (1 : ℚ))) 9 10 99 := by
  have h10 : 10 ≤ (List.replicate 10 (0 : ℚ)).length := by simp
  have hsum : 0 < ((List.replicate 10 (0 : ℚ)).map (fun _ => (1 : ℚ))).sum := by
    rw [List.map_replicate, List.sum_replicate]
    simp only [nsmul_eq_mul]
    norm_num
  refine ⟨⟨h10, hsum, by norm_num⟩, ?_⟩
  exact (C10_obw_positive_lower_bound (fun _ => 1) (List.replicate 10 0) 9 10 99 h10 hsum
    (by norm_num)).2.1

/-- Witness for C5: the 10-point equal-power trace evaluated at pct 50 and
pct 99 gives 4 Hz and 9 Hz respectively, and the theorem yields 4 at most
9. -/
theorem C5_obw_monotone_witness :
    ((50 : ℚ) ≤ 99 ∧
      compute_obw_from_trace (fun _ => (1 : ℚ)) (List.replicate 10 0) 9 10 50 = .ok 4 ∧
      compute_obw_from_trace (fun _ => (1 : ℚ)) (List.replicate 10 0) 9 10 99 = .ok 9) ∧
      (4 : ℚ) ≤ 9 := by
  have h99 : compute_obw_from_trace (fun _ => (1 : ℚ)) (List.replicate 10 0) 9 10 99 =
      .ok 9 := by
    simpa using
      compute_obw_replicate (fun _ => 1) 0 10 9 (by norm_num) (by norm_num) (by norm_num)
        (by norm_num)
  refine ⟨⟨by norm_num, compute_obw_eval_half, h99⟩, ?_⟩
  exact C5_obw_monotone_in_pct (fun _ => 1) (List.replicate 10 0) 9 10 50 99 4 9
    (by norm_num) compute_obw_eval_half h99

/-- Claim C1 (counterexample): the BLE TxPower stream invoked with the
invalid channel 40 (valid channels are 0..39) raises during parameter
validation before its first yield: the stream emits no events at all, so
no Done event is emitted on this validation-error path. -/
theorem C1_done_event_counterexample :
    (run_ble_tx_power_stream 10 40 ⟨[], [], [], false, false, false⟩).1 = [] ∧
      List.count EvTag.done
        (run_ble_tx_power_stream 10 40 ⟨[], [], [], false, false, false⟩).1 = 0 := by
  constructor <;> rfl

/-- Claim C1 (amended): in every environment (any pattern of operation
successes, exceptions and a consumer cancellation delivered at an await,
with cleanup awaits not themselves cancelled, and events yielded while
unwinding counted as emitted), the LoRa TxPower, LoRa FrequencyAccuracy,
LoRa OBW, LTE TxPower and LTE FrequencyAccuracy streams emit the Done
event exactly once and as the last event; the BLE TxPower and BLE
FrequencyAccuracy streams do so whenever their channel/power parameters
validate, but a validation failure raises before the first yield, so those
streams then emit no events at all (no Start and no Done). -/
theorem C1_done_event_once_and_last :
    (∀ s, DoneOnceLast ((run_tx_power_stream s).1)) ∧
    (∀ (k : Nat) (s : PSt), DoneOnceLast ((run_freq_accuracy_stream k s).1)) ∧
    (∀ (kAcc : Nat) (s : PSt), DoneOnceLast ((run_obw_stream kAcc s).1)) ∧
    (∀ (earfcn : ℤ) (lte_map : List (ℤ × ℤ)) (s : PSt),
      DoneOnceLast ((run_lte_tx_power_stream earfcn lte_map s).1)) ∧
    (∀ (earfcn : ℤ) (lte_map : List (ℤ × ℤ)) (k : Nat) (s : PSt),
      DoneOnceLast ((run_lte_frequency_accuracy_stream earfcn lte_map k s).1)) ∧
    (∀ (power channel f p : ℤ) (s : PSt),
      resolve_ble_channel_to_freq_hz channel = .ok f → parse_tx_power power = .ok p →
      DoneOnceLast ((run_ble_tx_power_stream power channel s).1)) ∧
    (∀ (power channel : ℤ) (e : String) (s : PSt),
      resolve_ble_channel_to_freq_hz channel = .error e →
      (run_ble_tx_power_stream power channel s).1 = []) ∧
    (∀ (power channel f : ℤ) (e : String) (s : PSt),
      resolve_ble_channel_to_freq_hz channel = .ok f → parse_tx_power power = .error e →
      (run_ble_tx_power_stream power channel s).1 = []) ∧
    (∀ (channel f : ℤ) (k : Nat) (s : PSt),
      resolve_ble_channel_to_freq_hz channel = .ok f →
      DoneOnceLast ((run_ble_frequency_accuracy_stream channel k s).1)) ∧
    (∀ (channel : ℤ) (e : String) (k : Nat) (s : PSt),
      resolve_ble_channel_to_freq_hz channel = .error e →
      (run_ble_frequency_accuracy_stream channel k s).1 = []) :=
  ⟨doneOnceLast_run_tx_power, doneOnceLast_run_freq_accuracy, doneOnceLast_run_obw,
   doneOnceLast_run_lte_tx_power, doneOnceLast_run_lte_freq_accuracy,
   fun power channel f p s hch hpw =>
     doneOnceLast_run_ble_tx_power power channel f p s hch hpw,
   fun power channel e s hch => ble_tx_power_invalid_channel power channel e s hch,
   fun power channel f e s hch hpw =>
     ble_tx_power_invalid_power power channel f e s hch hpw,
   fun channel f k s hch => doneOnceLast_run_ble_freq_accuracy channel f k s hch,
   fun channel e k s hch => ble_freq_accuracy_invalid_channel channel e k s hch⟩

/-- Witness for C1: a valid BLE TxPower run (channel 0, power 10) emits
Done exactly once and last, and the invalid channel 40 yields an empty
event stream. -/
theorem C1_done_event_witness :
    (resolve_ble_channel_to_freq_hz 0 = .ok 2402000000 ∧ parse_tx_power 10 = .ok 10 ∧
      DoneOnceLast ((run_ble_tx_power_stream 10 0 ⟨[], [], [], false, false, false⟩).1)) ∧
    (resolve_ble_channel_to_freq_hz 40 = .error "Unsupported BLE channel" ∧
      (run_ble_tx_power_stream 10 40 ⟨[], [], [], false, false, false⟩).1 = []) := by
  constructor
  · refine ⟨rfl, rfl, ?_⟩
    exact C1_done_event_once_and_last.2.2.2.2.2.1 10 0 2402000000 10 _ rfl rfl
  · refine ⟨rfl, ?_⟩
    exact C1_done_event_once_and_last.2.2.2.2.2.2.1 10 40 "Unsupported BLE channel" _ rfl

end RF
